import Mathlib

/-!
# slacksigverify: request authentication and event dispatch

A shallow embedding of `slacksigverify.go` (package `slacksigverify`) and the
properties of `ParseEvent` that its specification states.

Conventions of the embedding.

* A Go `string`, `[]byte` or `json.RawMessage` is a list of bytes (`Bytes`).
* An `int64` is an `Int`; every operation that can leave the 64-bit range is
  followed by `wrap64`, the two's-complement reduction.  `int` is 64 bits wide.
* A Go function returning `(T, error)` returns `T × Option (GoError _)`, the
  option being `none` for a `nil` error.  A function that can fault (nil
  dereference, failed type assertion) returns `Except Panic _`.
* What the package imports and does not define is a field of `Env`: the clock,
  HMAC-SHA256, `json.Unmarshal` at each target shape, and the two event registries.
-/

namespace Slacksigverify

/-! ## Bytes and strings -/

/-- A Go `string` or `[]byte`. -/
abbrev Bytes := List UInt8

/-- The bytes of an ASCII string literal. -/
def str (s : String) : Bytes := s.toList.map (fun c => UInt8.ofNat c.toNat)

/-! ## 64-bit integers -/

/-- Two's-complement reduction of an integer to the `int64` range. -/
def wrap64 (x : Int) : Int := (x + 2 ^ 63) % 2 ^ 64 - 2 ^ 63

/-- Membership in the `int64` range. -/
def InInt64 (x : Int) : Prop := -(2 ^ 63) ≤ x ∧ x < 2 ^ 63

instance (x : Int) : Decidable (InInt64 x) := by unfold InInt64; infer_instance

/-- Branch-free absolute value of the source:
`y := n >> 63; return (n ^ y) - y`, on `int64`. -/
def abs (n : Int) : Int :=
  let y := n >>> 63
  wrap64 (Int.xor n y - y)

/-! ## `strconv.Atoi` -/

/-- Value of a run of ASCII decimal digits, most significant first, continuing from `acc`;
`none` when a byte is not a digit. -/
def digitsValue : Bytes → Nat → Option Nat
  | [], acc => some acc
  | c :: cs, acc =>
    if 48 ≤ c.toNat ∧ c.toNat ≤ 57 then digitsValue cs (acc * 10 + (c.toNat - 48)) else none

/-- The integer a string denotes in signed decimal: an optional `+` or `-`, then one
or more decimal digits.  No range limit. -/
def decimalValue (s : Bytes) : Option Int :=
  match s with
  | [] => none
  | c :: cs =>
    if c = 45 then
      match cs with
      | [] => none
      | _ :: _ => (digitsValue cs 0).map (fun (n : Nat) => -(n : Int))
    else if c = 43 then
      match cs with
      | [] => none
      | _ :: _ => (digitsValue cs 0).map (fun (n : Nat) => (n : Int))
    else (digitsValue s 0).map (fun (n : Nat) => (n : Int))

/-- Go's `strconv.Atoi` on a 64-bit platform: the signed decimal value of the string
when it has one that fits `int`, otherwise an error (`none`), be it a syntax
or a range error. -/
def Atoi (s : Bytes) : Option Int :=
  match decimalValue s with
  | none => none
  | some v => if InInt64 v then some v else none

/-- The decimal digits of `n`, most significant first, in front of `acc`; `fuel` bounds the
number of digits. -/
def formatDigits : Nat → Nat → Bytes → Bytes
  | 0, _, acc => acc
  | fuel + 1, n, acc =>
    if n / 10 = 0 then UInt8.ofNat (48 + n % 10) :: acc
    else formatDigits fuel (n / 10) (UInt8.ofNat (48 + n % 10) :: acc)

/-- Go's `strconv.Itoa`, by which the tests write the timestamp: the shortest decimal
form, with `-` in front of a negative number. -/
def Itoa (i : Int) : Bytes :=
  if i < 0 then 45 :: formatDigits (i.natAbs + 1) i.natAbs []
  else formatDigits (i.natAbs + 1) i.natAbs []

/-! ## Freshness gate -/

/-- Source: `isOutOfRangeTimestamp`, with the clock reading `nowUnix()` as an argument. -/
def isOutOfRangeTimestamp (nowUnix : Int) (s : Bytes) : Bool :=
  match Atoi s with
  | none => false
  | some i => decide (abs (wrap64 (nowUnix - i)) > 60 * 5)

/-! ## Signature verifier -/

/-- Go's `hex` digit table. -/
def hextable : Bytes := str "0123456789abcdef"

/-- Go's `hex.EncodeToString`: two lowercase hexadecimal digits per byte, high nibble first. -/
def EncodeToString : Bytes → Bytes
  | [] => []
  | b :: bs =>
    hextable.getD (b.toNat >>> 4) 0 :: hextable.getD (b.toNat &&& 0x0f) 0 :: EncodeToString bs

/-- Source: `verifySSS`.  `hmacSHA256 key msg` stands for
`hmac.New(sha256.New, key)` fed `msg` and summed; `hmac.Equal` is equality of byte strings. -/
def verifySSS (hmacSHA256 : Bytes → Bytes → Bytes)
    (signingSecret slackRequest slackSignature : Bytes) : Bool :=
  let tokenResult := EncodeToString (hmacSHA256 signingSecret slackRequest)
  let requestHash := str "v0=" ++ tokenResult
  decide (requestHash = slackSignature)

/-! ## Errors and faults -/

/-- A Go `error` value, as far as the package can produce or pass on one:
an error that is its message (`errors.New`, `fmt.Errorf`), or an error handed back by
`json.Unmarshal`. -/
inductive GoError (JErr : Type) where
  | text (msg : Bytes)
  | json (cause : JErr)
  deriving DecidableEq

/-- What `err.Error()` prints; `jsonText` prints the errors of `encoding/json`. -/
def GoError.Error {JErr : Type} (jsonText : JErr → Bytes) : GoError JErr → Bytes
  | .text msg => msg
  | .json cause => jsonText cause

/-- A run-time fault that unwinds the call instead of returning. -/
inductive Panic where
  | nilDereference
  | typeAssertion
  deriving DecidableEq

/-! ## Event shapes of `github.com/nlopes/slack/slackevents` -/

/-- Modelled from the spec: `slackevents.CallbackEvent`, the envelope tag of a callback. -/
def CallbackEvent : Bytes := str "event_callback"

/-- Modelled from the spec: `slackevents.URLVerification`, the envelope tag of a URL
verification. -/
def URLVerification : Bytes := str "url_verification"

/-- Modelled from the spec: `slackevents.EventsAPICallbackEvent`, the callback envelope.
`InnerEvent` is a `*json.RawMessage`: `none` is the nil pointer. -/
structure EventsAPICallbackEvent where
  Type_ : Bytes
  Token : Bytes
  TeamID : Bytes
  APIAppID : Bytes
  InnerEvent : Option Bytes
  AuthedUsers : List Bytes
  EventID : Bytes
  EventTime : Int
  deriving DecidableEq

/-- Modelled from the spec: `slackevents.EventsAPIURLVerificationEvent`. -/
structure EventsAPIURLVerificationEvent where
  Token : Bytes
  Challenge : Bytes
  Type_ : Bytes
  deriving DecidableEq

/-- Modelled from the spec: `slack.Event`, of which the code reads the `type` tag only. -/
structure SlackEvent where
  Type_ : Bytes
  deriving DecidableEq

/-- Modelled from the spec: `slackevents.EventsAPIInnerEvent`.  `Data` is an
`interface{}`: `none` is nil, `some p` a decoded instance of a registered shape. -/
structure EventsAPIInnerEvent (Payload : Type) where
  Type_ : Bytes
  Data : Option Payload
  deriving DecidableEq

/-- The dynamic values that the `Data interface{}` field of an event holds in this package:
nil, a pointer to a callback envelope, a pointer to a URL-verification event, or a pointer
to a `slack.UnmarshallingErrorEvent` wrapping an error. -/
inductive EventData (JErr : Type) where
  | nil
  | callback (e : EventsAPICallbackEvent)
  | urlVerification (e : EventsAPIURLVerificationEvent)
  | unmarshallingError (ErrorObj : GoError JErr)
  deriving DecidableEq

/-- Modelled from the spec: `slackevents.EventsAPIEvent`, the value `ParseEvent` returns. -/
structure EventsAPIEvent (JErr Payload : Type) where
  Token : Bytes
  TeamID : Bytes
  Type_ : Bytes
  Data : EventData JErr
  InnerEvent : EventsAPIInnerEvent Payload
  deriving DecidableEq

/-- The zero value `slackevents.EventsAPIInnerEvent{}`. -/
def emptyInnerEvent {Payload : Type} : EventsAPIInnerEvent Payload :=
  { Type_ := [], Data := none }

/-- The zero value `slackevents.EventsAPIEvent{}`. -/
def emptyEvent {JErr Payload : Type} : EventsAPIEvent JErr Payload :=
  { Token := [], TeamID := [], Type_ := [], Data := .nil, InnerEvent := emptyInnerEvent }

/-- The event literal that the source writes out at every decoding failure: the given
token and team, type `"unmarshalling_error"`, the error wrapped in `Data`. -/
def unmarshallingErrorEvent {JErr Payload : Type} (token teamID : Bytes)
    (err : GoError JErr) : EventsAPIEvent JErr Payload :=
  { Token := token, TeamID := teamID, Type_ := str "unmarshalling_error",
    Data := .unmarshallingError err, InnerEvent := emptyInnerEvent }

/-! ## The imported environment -/

/-- Everything `ParseEvent` uses and the package does not define.

* `nowUnix`: the reading of the package clock `nowUnix()`.
* `hmacSHA256 key msg`: the HMAC-SHA256 tag of `msg` under `key`.
* `unmarshalEvent`, `unmarshalCallbackEvent`, `unmarshalURLVerificationEvent`,
  `unmarshalSlackEvent`: `json.Unmarshal` into a fresh value of the named shape.
* `unmarshalNew v raw`: `json.Unmarshal(raw, reflect.New(reflect.TypeOf(v)).Interface())`,
  decoding into a fresh instance of the shape of the registry template `v`.
* `EventsAPIInnerEventMapping`, `EventMapping`: the registries
  `slackevents.EventsAPIInnerEventMapping` and `slack.EventMapping`, as lookups.
* `jsonText`: the message of a JSON error. -/
structure Env (JErr Template Payload : Type) where
  nowUnix : Int
  hmacSHA256 : Bytes → Bytes → Bytes
  unmarshalEvent : Bytes → Except JErr (EventsAPIEvent JErr Payload)
  unmarshalCallbackEvent : Bytes → Except JErr EventsAPICallbackEvent
  unmarshalURLVerificationEvent : Bytes → Except JErr EventsAPIURLVerificationEvent
  unmarshalSlackEvent : Bytes → Except JErr SlackEvent
  unmarshalNew : Template → Bytes → Except JErr Payload
  EventsAPIInnerEventMapping : Bytes → Option Template
  EventMapping : Bytes → Option Template
  jsonText : JErr → Bytes

/-! ## Decoding -/

section Decoding

variable {JErr Template Payload : Type}

/-- Source: `eventsMap`.  `some v` is `(v, true)`, `none` is `(nil, false)`. -/
def eventsMap (env : Env JErr Template Payload) (t : Bytes) : Option Template :=
  match env.EventsAPIInnerEventMapping t with
  | some v => some v
  | none =>
    match env.EventMapping t with
    | some v => some v
    | none => none

/-- Source: `parseOuterEvent`. -/
def parseOuterEvent (env : Env JErr Template Payload) (rawE : Bytes) :
    EventsAPIEvent JErr Payload × Option (GoError JErr) :=
  match env.unmarshalEvent rawE with
  | .error err => (unmarshallingErrorEvent [] [] (.json err), some (.json err))
  | .ok e =>
    if e.Type_ = CallbackEvent then
      match env.unmarshalCallbackEvent rawE with
      | .error err => (unmarshallingErrorEvent [] [] (.json err), some (.json err))
      | .ok cbEvent =>
        ({ Token := e.Token, TeamID := e.TeamID, Type_ := e.Type_,
           Data := .callback cbEvent, InnerEvent := emptyInnerEvent }, none)
    else
      match env.unmarshalURLVerificationEvent rawE with
      | .error err => (unmarshallingErrorEvent [] [] (.json err), some (.json err))
      | .ok urlVE =>
        ({ Token := e.Token, TeamID := e.TeamID, Type_ := e.Type_,
           Data := .urlVerification urlVE, InnerEvent := emptyInnerEvent }, none)

/-- Source: `parseInnerEvent`.  Reading `*rawInnerJSON` faults on the nil pointer. -/
def parseInnerEvent (env : Env JErr Template Payload) (e : EventsAPICallbackEvent) :
    Except Panic (EventsAPIEvent JErr Payload × Option (GoError JErr)) :=
  match e.InnerEvent with
  | none => .error .nilDereference
  | some rawInnerJSON =>
    match env.unmarshalSlackEvent rawInnerJSON with
    | .error err =>
      .ok (unmarshallingErrorEvent e.Token e.TeamID (.json err), some (.json err))
    | .ok iE =>
      match eventsMap env iE.Type_ with
      | none =>
        .ok ({ Token := e.Token, TeamID := e.TeamID, Type_ := iE.Type_,
               Data := .nil, InnerEvent := emptyInnerEvent },
             some (.text (str "Inner Event does not exist! " ++ iE.Type_)))
      | some v =>
        match env.unmarshalNew v rawInnerJSON with
        | .error err =>
          .ok (unmarshallingErrorEvent e.Token e.TeamID (.json err), some (.json err))
        | .ok recvEvent =>
          .ok ({ Token := e.Token, TeamID := e.TeamID, Type_ := e.Type_,
                 Data := .callback e,
                 InnerEvent := { Type_ := iE.Type_, Data := some recvEvent } }, none)

/-- The error of the freshness gate. -/
def errTimestamp : GoError JErr := .text (str "timestamp is out of current time")

/-- The error of the signature step. -/
def errSignature : GoError JErr := .text (str "Invalid request signature")

/-- The string `fmt.Sprintf("v0:%v:%v", timestamp, requestBody)` that is signed. -/
def verifySlackRequest (timestamp requestBody : Bytes) : Bytes :=
  str "v0:" ++ timestamp ++ str ":" ++ requestBody

/-- Source: `ParseEvent`.  The assertion `e.Data.(*slackevents.EventsAPICallbackEvent)`
faults when `Data` holds anything but a callback envelope. -/
def ParseEvent (env : Env JErr Template Payload)
    (rawEvent signingSecret timestamp requestBody signature : Bytes) :
    Except Panic (EventsAPIEvent JErr Payload × Option (GoError JErr)) :=
  if isOutOfRangeTimestamp env.nowUnix timestamp then
    .ok (emptyEvent, some errTimestamp)
  else if !verifySSS env.hmacSHA256 signingSecret
      (verifySlackRequest timestamp requestBody) signature then
    .ok (emptyEvent, some errSignature)
  else
    match parseOuterEvent env rawEvent with
    | (_, some err) => .ok (emptyEvent, some err)
    | (e, none) =>
      if e.Type_ = CallbackEvent then
        match e.Data with
        | .callback cbEvent =>
          match parseInnerEvent env cbEvent with
          | .error p => .error p
          | .ok (innerEvent, some err) =>
            let err' : GoError JErr :=
              .text (str "EventsAPI Error parsing inner event: " ++ innerEvent.Type_ ++
                str ", " ++ err.Error env.jsonText)
            .ok (unmarshallingErrorEvent [] [] err', some err')
          | .ok (innerEvent, none) => .ok (innerEvent, none)
        | _ => .error .typeAssertion
      else
        match env.unmarshalURLVerificationEvent rawEvent with
        | .error err => .ok (unmarshallingErrorEvent [] [] (.json err), some (.json err))
        | .ok urlVerificationEvent =>
          .ok ({ Token := e.Token, TeamID := e.TeamID, Type_ := e.Type_,
                 Data := .urlVerification urlVerificationEvent,
                 InnerEvent := emptyInnerEvent }, none)

/-- The statements of `ParseEvent` that follow the two gates, as a function of the raw
event alone: what `ParseEvent` computes once both gates are passed. -/
def decodeEvent (env : Env JErr Template Payload) (rawEvent : Bytes) :
    Except Panic (EventsAPIEvent JErr Payload × Option (GoError JErr)) :=
  match parseOuterEvent env rawEvent with
  | (_, some err) => .ok (emptyEvent, some err)
  | (e, none) =>
    if e.Type_ = CallbackEvent then
      match e.Data with
      | .callback cbEvent =>
        match parseInnerEvent env cbEvent with
        | .error p => .error p
        | .ok (innerEvent, some err) =>
          let err' : GoError JErr :=
            .text (str "EventsAPI Error parsing inner event: " ++ innerEvent.Type_ ++
              str ", " ++ err.Error env.jsonText)
          .ok (unmarshallingErrorEvent [] [] err', some err')
        | .ok (innerEvent, none) => .ok (innerEvent, none)
      | _ => .error .typeAssertion
    else
      match env.unmarshalURLVerificationEvent rawEvent with
      | .error err => .ok (unmarshallingErrorEvent [] [] (.json err), some (.json err))
      | .ok urlVerificationEvent =>
        .ok ({ Token := e.Token, TeamID := e.TeamID, Type_ := e.Type_,
               Data := .urlVerification urlVerificationEvent,
               InnerEvent := emptyInnerEvent }, none)

/-- Follows the claim that the second envelope decoding is redundant: `ParseEvent` with the
second `json.Unmarshal` of the raw event removed, an envelope that is not a callback being
returned as `parseOuterEvent` has built it. -/
def ParseEventSingleDecode (env : Env JErr Template Payload)
    (rawEvent signingSecret timestamp requestBody signature : Bytes) :
    Except Panic (EventsAPIEvent JErr Payload × Option (GoError JErr)) :=
  if isOutOfRangeTimestamp env.nowUnix timestamp then
    .ok (emptyEvent, some errTimestamp)
  else if !verifySSS env.hmacSHA256 signingSecret
      (verifySlackRequest timestamp requestBody) signature then
    .ok (emptyEvent, some errSignature)
  else
    match parseOuterEvent env rawEvent with
    | (_, some err) => .ok (emptyEvent, some err)
    | (e, none) =>
      if e.Type_ = CallbackEvent then
        match e.Data with
        | .callback cbEvent =>
          match parseInnerEvent env cbEvent with
          | .error p => .error p
          | .ok (innerEvent, some err) =>
            let err' : GoError JErr :=
              .text (str "EventsAPI Error parsing inner event: " ++ innerEvent.Type_ ++
                str ", " ++ err.Error env.jsonText)
            .ok (unmarshallingErrorEvent [] [] err', some err')
          | .ok (innerEvent, none) => .ok (innerEvent, none)
        | _ => .error .typeAssertion
      else .ok (e, none)

end Decoding

/-! ## Vocabulary of the properties -/

section Vocabulary

variable {JErr Payload : Type}

/-- A call returns the error `err`, with whatever event. -/
def ReturnsError (r : Except Panic (EventsAPIEvent JErr Payload × Option (GoError JErr)))
    (err : GoError JErr) : Prop :=
  ∃ ev, r = .ok (ev, some err)

/-- The signature that the sender computes: `"v0="` and the lowercase hex of the
HMAC-SHA256, under the secret, of `"v0:" ++ timestamp ++ ":" ++ body`. -/
def expectedSignature (hmacSHA256 : Bytes → Bytes → Bytes)
    (secret timestamp body : Bytes) : Bytes :=
  str "v0=" ++ EncodeToString (hmacSHA256 secret (str "v0:" ++ timestamp ++ str ":" ++ body))

/-- A byte is a lowercase hexadecimal digit, `0`-`9` or `a`-`f`. -/
def isLowerHex (c : UInt8) : Bool :=
  (48 ≤ c.toNat && c.toNat ≤ 57) || (97 ≤ c.toNat && c.toNat ≤ 102)

/-- The contract of `json.Unmarshal` on the key `type`: when one body decodes both as
`slackevents.EventsAPIEvent` and as `slackevents.EventsAPICallbackEvent`, whose `Type`
fields carry the same tag `json:"type"`, the two decodings hold the same type. -/
def TypeKeyAgrees {Template : Type} (env : Env JErr Template Payload) : Prop :=
  ∀ (raw : Bytes) (e : EventsAPIEvent JErr Payload) (cb : EventsAPICallbackEvent),
    env.unmarshalEvent raw = .ok e → env.unmarshalCallbackEvent raw = .ok cb →
      cb.Type_ = e.Type_

end Vocabulary

/-! ## SHA-256 and HMAC

The hash that instantiates `Env.hmacSHA256` in the concrete environment below.  Words are
natural numbers below `2 ^ 32`; every addition is reduced modulo `2 ^ 32`. -/

namespace SHA256

/-- Modelled from the spec: the round constants of SHA-256 (FIPS 180-4, section 4.2.2). -/
def K : List Nat := [
  0x428a2f98, 0x71374491, 0xb5c0fbcf, 0xe9b5dba5, 0x3956c25b, 0x59f111f1, 0x923f82a4, 0xab1c5ed5,
  0xd807aa98, 0x12835b01, 0x243185be, 0x550c7dc3, 0x72be5d74, 0x80deb1fe, 0x9bdc06a7, 0xc19bf174,
  0xe49b69c1, 0xefbe4786, 0x0fc19dc6, 0x240ca1cc, 0x2de92c6f, 0x4a7484aa, 0x5cb0a9dc, 0x76f988da,
  0x983e5152, 0xa831c66d, 0xb00327c8, 0xbf597fc7, 0xc6e00bf3, 0xd5a79147, 0x06ca6351, 0x14292967,
  0x27b70a85, 0x2e1b2138, 0x4d2c6dfc, 0x53380d13, 0x650a7354, 0x766a0abb, 0x81c2c92e, 0x92722c85,
  0xa2bfe8a1, 0xa81a664b, 0xc24b8b70, 0xc76c51a3, 0xd192e819, 0xd6990624, 0xf40e3585, 0x106aa070,
  0x19a4c116, 0x1e376c08, 0x2748774c, 0x34b0bcb5, 0x391c0cb3, 0x4ed8aa4a, 0x5b9cca4f, 0x682e6ff3,
  0x748f82ee, 0x78a5636f, 0x84c87814, 0x8cc70208, 0x90befffa, 0xa4506ceb, 0xbef9a3f7, 0xc67178f2]

/-- Rotation of a 32-bit word to the right. -/
def rotr (x n : Nat) : Nat := ((x >>> n) ||| (x <<< (32 - n))) % 2 ^ 32

/-- Addition of 32-bit words. -/
def add32 (a b : Nat) : Nat := (a + b) % 2 ^ 32

/-- The message followed by the bit `1`, zeros up to 56 modulo 64 bytes, and the bit length
as 8 big-endian bytes. -/
def pad (msg : Bytes) : Bytes :=
  let l := msg.length
  msg ++ [(0x80 : UInt8)] ++ List.replicate ((119 - l % 64) % 64) (0 : UInt8) ++
    (List.range 8).map (fun i => UInt8.ofNat (((8 * l) >>> (8 * (7 - i))) % 256))

/-- Big-endian 32-bit words of a byte string. -/
def words : Bytes → List Nat
  | a :: b :: c :: d :: rest =>
    (a.toNat * 2 ^ 24 + b.toNat * 2 ^ 16 + c.toNat * 2 ^ 8 + d.toNat) :: words rest
  | _ => []

/-- The message schedule, latest word first: `n` more words on top of `w`. -/
def schedule : Nat → List Nat → List Nat
  | 0, w => w
  | n + 1, w =>
    let w2 := w.getD 1 0
    let w7 := w.getD 6 0
    let w15 := w.getD 14 0
    let w16 := w.getD 15 0
    let s0 := rotr w15 7 ^^^ rotr w15 18 ^^^ (w15 >>> 3)
    let s1 := rotr w2 17 ^^^ rotr w2 19 ^^^ (w2 >>> 10)
    schedule n (add32 (add32 (add32 w16 s0) w7) s1 :: w)

/-- The eight working variables. -/
structure State where
  a : Nat
  b : Nat
  c : Nat
  d : Nat
  e : Nat
  f : Nat
  g : Nat
  h : Nat

/-- One round of the compression function. -/
def round (s : State) (k w : Nat) : State :=
  let S1 := rotr s.e 6 ^^^ rotr s.e 11 ^^^ rotr s.e 25
  let ch := (s.e &&& s.f) ^^^ ((s.e ^^^ 0xffffffff) &&& s.g)
  let t1 := add32 (add32 (add32 (add32 s.h S1) ch) k) w
  let S0 := rotr s.a 2 ^^^ rotr s.a 13 ^^^ rotr s.a 22
  let maj := (s.a &&& s.b) ^^^ (s.a &&& s.c) ^^^ (s.b &&& s.c)
  let t2 := add32 S0 maj
  ⟨add32 t1 t2, s.a, s.b, s.c, add32 s.d t1, s.e, s.f, s.g⟩

/-- The rounds of one block, over the constants and the schedule. -/
def rounds : State → List Nat → List Nat → State
  | s, k :: ks, w :: ws => rounds (round s k w) ks ws
  | s, _, _ => s

/-- The compression of one 16-word block into the chaining value. -/
def compress (h : State) (block : List Nat) : State :=
  let s := rounds h K (schedule 48 block.reverse).reverse
  ⟨add32 h.a s.a, add32 h.b s.b, add32 h.c s.c, add32 h.d s.d,
   add32 h.e s.e, add32 h.f s.f, add32 h.g s.g, add32 h.h s.h⟩

/-- The chaining over `n` blocks. -/
def blocks : Nat → State → List Nat → State
  | 0, h, _ => h
  | n + 1, h, ws => blocks n (compress h (ws.take 16)) (ws.drop 16)

/-- The four big-endian bytes of a word. -/
def be32 (x : Nat) : Bytes :=
  [UInt8.ofNat (x >>> 24 % 256), UInt8.ofNat (x >>> 16 % 256), UInt8.ofNat (x >>> 8 % 256),
   UInt8.ofNat (x % 256)]

/-- Modelled from the spec: SHA-256 (FIPS 180-4), which Go's `crypto/sha256` implements. -/
def sum (msg : Bytes) : Bytes :=
  let p := pad msg
  let s := blocks (p.length / 64)
    ⟨0x6a09e667, 0xbb67ae85, 0x3c6ef372, 0xa54ff53a, 0x510e527f, 0x9b05688c, 0x1f83d9ab,
     0x5be0cd19⟩ (words p)
  be32 s.a ++ be32 s.b ++ be32 s.c ++ be32 s.d ++ be32 s.e ++ be32 s.f ++ be32 s.g ++ be32 s.h

end SHA256

/-- Modelled from the spec: HMAC (RFC 2104) over SHA-256, which Go's `crypto/hmac` with
`sha256.New` implements. -/
def hmacSHA256 (key msg : Bytes) : Bytes :=
  let k := if key.length > 64 then SHA256.sum key else key
  let k := k ++ List.replicate (64 - k.length) (0 : UInt8)
  SHA256.sum (k.map (fun b => b ^^^ 0x5c) ++ SHA256.sum (k.map (fun b => b ^^^ 0x36) ++ msg))

/-! ## A concrete environment

The values of the package's tests (clock, secret, signed body, signature) and the bodies of
the specification's scenarios, with `json.Unmarshal` tabulated on those bodies. -/

namespace Fixture

/-- The signing secret of the tests. -/
def signingSecret : Bytes := str "1111111111111111111111111111111"

/-- The signed body of the tests. -/
def requestBody : Bytes := str "dummy body"

/-- The timestamp of the tests, `strconv.Itoa` of the pinned clock. -/
def timestamp : Bytes := str "1533878462"

/-- The signature of the tests. -/
def signature : Bytes :=
  str "v0=d1efdfee3e5d339a96d6cad2a1c03acbf86cee500d582a9ca3595aa2cb0d6274"

/-- A URL-verification envelope. -/
def urlVerificationBody : Bytes := str
  "\x7b\"token\":\"fake-token\",\"challenge\":\"aljdsflaji3jj\",\"type\":\"url_verification\"\x7d"

/-- The inner event of `callbackBody`. -/
def appMentionInner : Bytes := str
  "\x7b\"type\":\"app_mention\",\"event_ts\":\"1234567890.123456\",\"user\":\"UXXXXXXX1\"\x7d"

/-- A callback envelope around an `app_mention` inner event. -/
def callbackBody : Bytes :=
  str "\x7b\"token\":\"XXYYZZ\",\"team_id\":\"TXXXXXXXX\"," ++
    str "\"api_app_id\":\"AXXXXXXXXX\",\"event\":" ++
    appMentionInner ++
    str ",\"type\":\"event_callback\",\"authed_users\":[\"UXXXXXXX1\"]," ++
    str "\"event_id\":\"Ev08MFMKH6\",\"event_time\":1234567890\x7d"

/-- An inner event of a type that no registry knows. -/
def unknownInner : Bytes := str "\x7b\"type\":\"definitely_not_real\"\x7d"

/-- A callback envelope around `unknownInner`. -/
def unknownInnerBody : Bytes :=
  str "\x7b\"token\":\"XXYYZZ\",\"team_id\":\"TXXXXXXXX\",\"event\":" ++ unknownInner ++
    str ",\"type\":\"event_callback\"\x7d"

/-- A callback envelope without an `event` field. -/
def noEventBody : Bytes := str
  "\x7b\"token\":\"XXYYZZ\",\"team_id\":\"TXXXXXXXX\",\"type\":\"event_callback\"\x7d"

/-- An envelope of a type other than callback and URL verification. -/
def otherTypeBody : Bytes := str
  "\x7b\"token\":\"XXYYZZ\",\"team_id\":\"TXXXXXXXX\",\"type\":\"app_rate_limited\"\x7d"

/-- A body that is not JSON. -/
def malformedBody : Bytes := str "\x7b"

/-- The registry templates of the concrete environment: the zero values of
`slackevents.AppMentionEvent`, `slackevents.MessageEvent`, `slack.MessageEvent` and
`slack.UserTypingEvent`. -/
inductive Template where
  | appMentionEvent
  | messageEvent
  | rtmMessageEvent
  | userTypingEvent
  deriving DecidableEq

/-- Modelled from the spec: `slackevents.AppMentionEvent`, the app-mention shape. -/
structure AppMentionEvent where
  Type_ : Bytes
  User : Bytes
  Text : Bytes
  TimeStamp : Bytes
  Channel : Bytes
  EventTimeStamp : Bytes
  deriving DecidableEq

/-- The decoded inner events of the concrete environment. -/
inductive Payload where
  | appMention (e : AppMentionEvent)
  deriving DecidableEq

/-- JSON errors of the concrete environment are their messages. -/
abbrev JErr := Bytes

/-- The three decodings of a tabulated envelope. -/
structure Decoded where
  event : EventsAPIEvent JErr Payload
  callback : EventsAPICallbackEvent
  urlVerification : EventsAPIURLVerificationEvent

/-- The decodings of an envelope with the given fields into the three envelope shapes:
each shape keeps the keys it declares and leaves the rest at the zero value. -/
def decoded (token teamID type_ apiAppID challenge eventID : Bytes) (event : Option Bytes)
    (authedUsers : List Bytes) (eventTime : Int) : Decoded :=
  { event := { Token := token, TeamID := teamID, Type_ := type_, Data := .nil,
               InnerEvent := emptyInnerEvent }
    callback := { Type_ := type_, Token := token, TeamID := teamID, APIAppID := apiAppID,
                  InnerEvent := event, AuthedUsers := authedUsers, EventID := eventID,
                  EventTime := eventTime }
    urlVerification := { Token := token, Challenge := challenge, Type_ := type_ } }

/-- What `json.Unmarshal` makes of the tabulated envelopes; any other body is answered
with an error. -/
def envelope (raw : Bytes) : Except JErr Decoded :=
  if raw = urlVerificationBody then
    .ok (decoded (str "fake-token") [] URLVerification [] (str "aljdsflaji3jj") [] none [] 0)
  else if raw = callbackBody then
    .ok (decoded (str "XXYYZZ") (str "TXXXXXXXX") CallbackEvent (str "AXXXXXXXXX") []
      (str "Ev08MFMKH6") (some appMentionInner) [str "UXXXXXXX1"] 1234567890)
  else if raw = unknownInnerBody then
    .ok (decoded (str "XXYYZZ") (str "TXXXXXXXX") CallbackEvent [] [] [] (some unknownInner)
      [] 0)
  else if raw = noEventBody then
    .ok (decoded (str "XXYYZZ") (str "TXXXXXXXX") CallbackEvent [] [] [] none [] 0)
  else if raw = otherTypeBody then
    .ok (decoded (str "XXYYZZ") (str "TXXXXXXXX") (str "app_rate_limited") [] [] [] none [] 0)
  else if raw = malformedBody then .error (str "unexpected end of JSON input")
  else if raw = requestBody then
    .error (str "invalid character \x27d\x27 looking for beginning of value")
  else .error (str "body outside the table")

/-- What `json.Unmarshal` makes of the tabulated inner events at `slack.Event`. -/
def slackEvent (raw : Bytes) : Except JErr SlackEvent :=
  if raw = appMentionInner then .ok { Type_ := str "app_mention" }
  else if raw = unknownInner then .ok { Type_ := str "definitely_not_real" }
  else .error (str "body outside the table")

/-- What `json.Unmarshal` makes of the tabulated inner events at a registered shape. -/
def unmarshalNew (v : Template) (raw : Bytes) : Except JErr Payload :=
  if v = .appMentionEvent ∧ raw = appMentionInner then
    .ok (.appMention { Type_ := str "app_mention", User := str "UXXXXXXX1", Text := [],
                       TimeStamp := [], Channel := [],
                       EventTimeStamp := str "1234567890.123456" })
  else .error (str "body outside the table")

/-- A part of `slackevents.EventsAPIInnerEventMapping`. -/
def eventsAPIInnerEventMapping (t : Bytes) : Option Template :=
  if t = str "app_mention" then some .appMentionEvent
  else if t = str "message" then some .messageEvent
  else none

/-- A part of `slack.EventMapping`. -/
def eventMapping (t : Bytes) : Option Template :=
  if t = str "message" then some .rtmMessageEvent
  else if t = str "user_typing" then some .userTypingEvent
  else none

/-- The concrete environment: the clock pinned as in the tests, the real HMAC-SHA256, the
tabulated decoders and registries. -/
def env : Env JErr Template Payload where
  nowUnix := 1533878462
  hmacSHA256 := hmacSHA256
  unmarshalEvent raw := (envelope raw).map (fun d => d.event)
  unmarshalCallbackEvent raw := (envelope raw).map (fun d => d.callback)
  unmarshalURLVerificationEvent raw := (envelope raw).map (fun d => d.urlVerification)
  unmarshalSlackEvent := slackEvent
  unmarshalNew := unmarshalNew
  EventsAPIInnerEventMapping := eventsAPIInnerEventMapping
  EventMapping := eventMapping
  jsonText := id

end Fixture

/-! ## Arithmetic of the freshness gate -/

theorem wrap64_of_inInt64 {x : Int} (h : InInt64 x) : wrap64 x = x := by
  unfold InInt64 at h
  unfold wrap64
  have : (x + 2 ^ 63) % 2 ^ 64 = x + 2 ^ 63 := Int.emod_eq_of_lt (by omega) (by omega)
  omega

theorem abs_ofNat (m : Nat) (h : m < 2 ^ 63) : abs (Int.ofNat m) = Int.ofNat m := by
  have hy : (Int.ofNat m) >>> 63 = 0 := by
    show Int.ofNat (m >>> 63) = 0
    rw [Nat.shiftRight_eq_div_pow, Nat.div_eq_of_lt h]; rfl
  unfold abs
  simp only [hy]
  have hx : Int.xor (Int.ofNat m) 0 = Int.ofNat m := by
    show Int.ofNat (m ^^^ 0) = Int.ofNat m
    rw [Nat.xor_zero]
  rw [hx, sub_zero]
  exact wrap64_of_inInt64
    ⟨by simp only [Int.ofNat_eq_coe]; omega, by simp only [Int.ofNat_eq_coe]; omega⟩

theorem abs_negSucc (m : Nat) (h : m < 2 ^ 63) : abs (Int.negSucc m) = wrap64 (m + 1) := by
  have hy : (Int.negSucc m) >>> 63 = Int.negSucc 0 := by
    show Int.negSucc (m >>> 63) = Int.negSucc 0
    rw [Nat.shiftRight_eq_div_pow, Nat.div_eq_of_lt h]
  unfold abs
  simp only [hy]
  have hx : Int.xor (Int.negSucc m) (Int.negSucc 0) = Int.ofNat m := by
    show Int.ofNat (m ^^^ 0) = Int.ofNat m
    rw [Nat.xor_zero]
  rw [hx]
  congr 1

/-- Away from the least `int64`, the branch-free `abs` is the absolute value. -/
theorem abs_eq_abs {n : Int} (h1 : -(2 ^ 63) < n) (h2 : n < 2 ^ 63) : abs n = |n| := by
  cases n with
  | ofNat m =>
    rw [abs_ofNat m (by simp only [Int.ofNat_eq_coe] at h2; omega)]
    simp
  | negSucc m =>
    have hm : m + 1 < 2 ^ 63 := by
      have := Int.negSucc_eq m
      omega
    rw [abs_negSucc m (by omega), wrap64_of_inInt64 ⟨by omega, by omega⟩]
    rw [Int.negSucc_eq, abs_neg]
    rw [abs_of_nonneg (by omega)]

/-- At the least `int64` the branch-free `abs` returns its argument, a negative number. -/
theorem abs_minInt64 : abs (-(2 ^ 63)) = -(2 ^ 63) := by decide

/-- The verdict of the freshness gate when the subtraction stays inside `int64` and is
not the least `int64`: exactly the 300-second window. -/
theorem isOutOfRangeTimestamp_eq {now i : Int} {s : Bytes} (hs : Atoi s = some i)
    (h1 : -(2 ^ 63) < now - i) (h2 : now - i < 2 ^ 63) :
    isOutOfRangeTimestamp now s = decide (|now - i| > 300) := by
  unfold isOutOfRangeTimestamp
  rw [hs]
  simp only
  rw [wrap64_of_inInt64 ⟨by omega, h2⟩, abs_eq_abs h1 h2]
  norm_num

theorem Atoi_eq_some {s : Bytes} {i : Int} (h : Atoi s = some i) :
    decimalValue s = some i ∧ InInt64 i := by
  unfold Atoi at h
  cases hd : decimalValue s with
  | none => rw [hd] at h; simp at h
  | some v =>
    rw [hd] at h
    by_cases hv : InInt64 v
    · simp only [hv, if_true, Option.some.injEq] at h
      subst h; exact ⟨rfl, hv⟩
    · simp [hv] at h

/-- A timestamp whose decimal value is within 300 seconds of the clock passes the gate. -/
theorem isOutOfRangeTimestamp_of_near {now i : Int} {s : Bytes}
    (hs : decimalValue s = some i) (h : |now - i| ≤ 300) :
    isOutOfRangeTimestamp now s = false := by
  cases ha : Atoi s with
  | none => unfold isOutOfRangeTimestamp; rw [ha]
  | some j =>
    have hj := (Atoi_eq_some ha).1
    rw [hs] at hj
    obtain rfl : i = j := by simpa using hj
    have hb := abs_le.mp h
    rw [isOutOfRangeTimestamp_eq ha (by omega) (by omega)]
    simp only [decide_eq_false_iff_not, not_lt]
    exact h

theorem digitsValue_append (xs ys : Bytes) (a : Nat) :
    digitsValue (xs ++ ys) a = (digitsValue xs a).bind (digitsValue ys) := by
  induction xs generalizing a with
  | nil => rfl
  | cons c cs ih =>
    simp only [List.cons_append, digitsValue]
    split
    · exact ih _
    · rfl

theorem formatDigits_append (fuel n : Nat) (acc : Bytes) :
    formatDigits fuel n acc = formatDigits fuel n [] ++ acc := by
  induction fuel generalizing n acc with
  | zero => rfl
  | succ f ih =>
    simp only [formatDigits]
    split
    · rfl
    · rw [ih (n / 10) (_ :: acc), ih (n / 10) [_]]
      simp

theorem digit_toNat (d : Nat) (h : d < 10) : (UInt8.ofNat (48 + d)).toNat = 48 + d := by
  interval_cases d <;> rfl

theorem digitsValue_formatDigits (fuel n : Nat) (h : n < fuel) :
    digitsValue (formatDigits fuel n []) 0 = some n := by
  induction fuel generalizing n with
  | zero => omega
  | succ f ih =>
    have hd := digit_toNat (n % 10) (Nat.mod_lt _ (by norm_num))
    have hr : 48 ≤ 48 + n % 10 ∧ 48 + n % 10 ≤ 57 := by omega
    simp only [formatDigits]
    split
    · simp only [digitsValue, hd, hr, and_self, if_true]
      congr 1
      omega
    · rw [formatDigits_append, digitsValue_append, ih (n / 10) (by omega)]
      simp only [Option.some_bind, digitsValue, hd, hr, and_self, if_true]
      congr 1
      omega

theorem formatDigits_head (fuel n : Nat) (acc : Bytes) :
    ∃ d cs, d < 10 ∧ formatDigits (fuel + 1) n acc = UInt8.ofNat (48 + d) :: cs := by
  induction fuel generalizing n acc with
  | zero =>
    simp only [formatDigits]
    split
    · exact ⟨n % 10, acc, Nat.mod_lt _ (by norm_num), rfl⟩
    · exact ⟨n % 10, acc, Nat.mod_lt _ (by norm_num), rfl⟩
  | succ f ih =>
    rw [formatDigits]
    split
    · exact ⟨n % 10, acc, Nat.mod_lt _ (by norm_num), rfl⟩
    · exact ih _ _

/-- The string `strconv.Itoa i` is a decimal form of `i`. -/
theorem decimalValue_Itoa (i : Int) : decimalValue (Itoa i) = some i := by
  unfold Itoa
  obtain ⟨d, cs, hd, hcs⟩ := formatDigits_head i.natAbs i.natAbs []
  have hv := digitsValue_formatDigits (i.natAbs + 1) i.natAbs (by omega)
  rw [hcs] at hv
  by_cases hneg : i < 0
  · simp only [hneg, if_true, decimalValue]
    rw [hcs]
    simp only [if_true, hv, Option.map_some', Option.some.injEq]
    omega
  · simp only [hneg, if_false]
    rw [hcs]
    have h45 : UInt8.ofNat (48 + d) ≠ 45 := by interval_cases d <;> decide
    have h43 : UInt8.ofNat (48 + d) ≠ 43 := by interval_cases d <;> decide
    simp only [decimalValue, h45, h43, if_false, hv, Option.map_some', Option.some.injEq]
    omega

/-! ## The gates of `ParseEvent` -/

section Gates

variable {JErr Template Payload : Type}

theorem verifySSS_iff (hmacSHA256 : Bytes → Bytes → Bytes)
    (secret timestamp body signature : Bytes) :
    verifySSS hmacSHA256 secret (verifySlackRequest timestamp body) signature = true ↔
      signature = expectedSignature hmacSHA256 secret timestamp body := by
  unfold verifySSS verifySlackRequest expectedSignature
  simp only [decide_eq_true_eq]
  exact eq_comm

theorem ParseEvent_of_stale (env : Env JErr Template Payload)
    (rawEvent signingSecret timestamp requestBody signature : Bytes)
    (h : isOutOfRangeTimestamp env.nowUnix timestamp = true) :
    ParseEvent env rawEvent signingSecret timestamp requestBody signature =
      .ok (emptyEvent, some errTimestamp) := by
  unfold ParseEvent
  rw [if_pos h]

theorem ParseEvent_of_rejected (env : Env JErr Template Payload)
    (rawEvent signingSecret timestamp requestBody signature : Bytes)
    (h : isOutOfRangeTimestamp env.nowUnix timestamp = false)
    (hsig : verifySSS env.hmacSHA256 signingSecret
      (verifySlackRequest timestamp requestBody) signature = false) :
    ParseEvent env rawEvent signingSecret timestamp requestBody signature =
      .ok (emptyEvent, some errSignature) := by
  unfold ParseEvent
  simp [h, hsig]

theorem ParseEvent_of_pass (env : Env JErr Template Payload)
    (rawEvent signingSecret timestamp requestBody signature : Bytes)
    (h : isOutOfRangeTimestamp env.nowUnix timestamp = false)
    (hsig : verifySSS env.hmacSHA256 signingSecret
      (verifySlackRequest timestamp requestBody) signature = true) :
    ParseEvent env rawEvent signingSecret timestamp requestBody signature =
      decodeEvent env rawEvent := by
  unfold ParseEvent decodeEvent
  simp [h, hsig]

theorem parseOuterEvent_error (env : Env JErr Template Payload) (rawE : Bytes)
    (e : EventsAPIEvent JErr Payload) (err : GoError JErr)
    (h : parseOuterEvent env rawE = (e, some err)) : ∃ cause, err = .json cause := by
  unfold parseOuterEvent at h
  split at h
  · simp only [Prod.mk.injEq, Option.some.injEq] at h
    exact ⟨_, h.2.symm⟩
  · split at h
    · split at h
      · simp only [Prod.mk.injEq, Option.some.injEq] at h
        exact ⟨_, h.2.symm⟩
      · simp at h
    · split at h
      · simp only [Prod.mk.injEq, Option.some.injEq] at h
        exact ⟨_, h.2.symm⟩
      · simp at h

/-- The errors that decoding returns are JSON errors and the wrapped inner-event error. -/
theorem decodeEvent_error (env : Env JErr Template Payload) (rawEvent : Bytes)
    (ev : EventsAPIEvent JErr Payload) (err : GoError JErr)
    (h : decodeEvent env rawEvent = .ok (ev, some err)) :
    (∃ cause, err = .json cause) ∨
      ∃ rest, err = .text (str "EventsAPI Error parsing inner event: " ++ rest) := by
  unfold decodeEvent at h
  split at h
  · next e err' hp =>
    simp only [Except.ok.injEq, Prod.mk.injEq, Option.some.injEq] at h
    rw [← h.2]
    exact Or.inl (parseOuterEvent_error env rawEvent e err' hp)
  · split at h
    · split at h
      · split at h
        · simp at h
        · next innerEvent err' _ =>
          simp only [Except.ok.injEq, Prod.mk.injEq, Option.some.injEq] at h
          refine Or.inr ⟨innerEvent.Type_ ++ str ", " ++ err'.Error env.jsonText, ?_⟩
          rw [← h.2]
          simp only [List.append_assoc]
        · simp at h
      · simp at h
    · split at h
      · simp only [Except.ok.injEq, Prod.mk.injEq, Option.some.injEq] at h
        exact Or.inl ⟨_, h.2.symm⟩
      · simp at h

/-- Decoding returns neither gate error. -/
theorem decodeEvent_not_gateError (env : Env JErr Template Payload) (rawEvent : Bytes) :
    ¬ ReturnsError (decodeEvent env rawEvent) errTimestamp ∧
      ¬ ReturnsError (decodeEvent env rawEvent) errSignature := by
  constructor
  · rintro ⟨ev, h⟩
    rcases decodeEvent_error env rawEvent ev _ h with ⟨c, hc⟩ | ⟨rest, hr⟩
    · simp [errTimestamp] at hc
    · simp only [errTimestamp, GoError.text.injEq] at hr
      have hhead := congrArg List.head? hr
      have he : List.head? (str "EventsAPI Error parsing inner event: " ++ rest) = some 69 :=
        rfl
      rw [he] at hhead
      exact absurd hhead (by decide)
  · rintro ⟨ev, h⟩
    rcases decodeEvent_error env rawEvent ev _ h with ⟨c, hc⟩ | ⟨rest, hr⟩
    · simp [errSignature] at hc
    · simp only [errSignature, GoError.text.injEq] at hr
      have hhead := congrArg List.head? hr
      have he : List.head? (str "EventsAPI Error parsing inner event: " ++ rest) = some 69 :=
        rfl
      rw [he] at hhead
      exact absurd hhead (by decide)

/-- The tests' signature is the HMAC-SHA256 signature of the tests' body and timestamp
under the tests' secret. -/
theorem Fixture.signature_eq :
    Fixture.signature =
      expectedSignature hmacSHA256 Fixture.signingSecret Fixture.timestamp
        Fixture.requestBody := by
  decide!

/-- The tests' timestamp is inside the window of the pinned clock. -/
theorem Fixture.timestamp_fresh :
    isOutOfRangeTimestamp Fixture.env.nowUnix Fixture.timestamp = false := by
  decide

/-- The tests' request passes the signature step. -/
theorem Fixture.verifySSS_eq :
    verifySSS Fixture.env.hmacSHA256 Fixture.signingSecret
      (verifySlackRequest Fixture.timestamp Fixture.requestBody) Fixture.signature = true :=
  (verifySSS_iff _ _ _ _ _).mpr Fixture.signature_eq

/-- C1: a request whose timestamp is the decimal form of an integer within 300 seconds of
the clock, and whose signature is `"v0="` followed by the lowercase hex of the HMAC-SHA256
of `"v0:" ++ ts ++ ":" ++ body` under the secret, is returned neither the
"timestamp is out of current time" error nor the "Invalid request signature" error, whatever
the raw event. -/
theorem ParseEvent_fresh_signed_passes (env : Env JErr Template Payload)
    (rawEvent secret body ts signature : Bytes) (i : Int)
    (hts : decimalValue ts = some i) (hwin : |env.nowUnix - i| ≤ 300)
    (hsig : signature =
      str "v0=" ++ EncodeToString (env.hmacSHA256 secret (str "v0:" ++ ts ++ str ":" ++ body))) :
    ¬ ReturnsError (ParseEvent env rawEvent secret ts body signature) errTimestamp ∧
      ¬ ReturnsError (ParseEvent env rawEvent secret ts body signature) errSignature := by
  have hfresh := isOutOfRangeTimestamp_of_near hts hwin
  have hok := (verifySSS_iff env.hmacSHA256 secret ts body signature).mpr hsig
  rw [ParseEvent_of_pass env rawEvent secret ts body signature hfresh hok]
  exact decodeEvent_not_gateError env rawEvent

/-- Witness of C1: the request of `TestParseURLVerificationEvent`. -/
theorem ParseEvent_fresh_signed_passes_witness :
    ¬ ReturnsError (ParseEvent Fixture.env Fixture.urlVerificationBody Fixture.signingSecret
        Fixture.timestamp Fixture.requestBody Fixture.signature) errTimestamp ∧
      ¬ ReturnsError (ParseEvent Fixture.env Fixture.urlVerificationBody Fixture.signingSecret
        Fixture.timestamp Fixture.requestBody Fixture.signature) errSignature :=
  ParseEvent_fresh_signed_passes Fixture.env Fixture.urlVerificationBody Fixture.signingSecret
    Fixture.requestBody Fixture.timestamp Fixture.signature 1533878462 (by decide) (by decide)
    Fixture.signature_eq

/-- C2: for a timestamp that passes the freshness gate, `ParseEvent` returns the
"Invalid request signature" error exactly when the signature differs from `"v0="` followed
by the lowercase hex of the HMAC-SHA256 of `"v0:" ++ timestamp ++ ":" ++ body`, the
timestamp and the body entering as the strings received. -/
theorem ParseEvent_errSignature_iff (env : Env JErr Template Payload)
    (rawEvent secret body signature timestamp : Bytes)
    (hfresh : isOutOfRangeTimestamp env.nowUnix timestamp = false) :
    ReturnsError (ParseEvent env rawEvent secret timestamp body signature) errSignature ↔
      signature ≠ str "v0=" ++
        EncodeToString (env.hmacSHA256 secret (str "v0:" ++ timestamp ++ str ":" ++ body)) := by
  constructor
  · rintro hret heq
    have hok := (verifySSS_iff env.hmacSHA256 secret timestamp body signature).mpr heq
    rw [ParseEvent_of_pass env rawEvent secret timestamp body signature hfresh hok] at hret
    exact (decodeEvent_not_gateError env rawEvent).2 hret
  · intro hne
    have hrej : verifySSS env.hmacSHA256 secret (verifySlackRequest timestamp body)
        signature = false := by
      rw [Bool.eq_false_iff]
      intro h
      exact hne ((verifySSS_iff env.hmacSHA256 secret timestamp body signature).mp h)
    exact ⟨emptyEvent,
      ParseEvent_of_rejected env rawEvent secret timestamp body signature hfresh hrej⟩

/-- Witness of C2: the tests' signature, made over the timestamp `1533878462`, is refused
when the timestamp arrives as `01533878462`, a fresh string of the same value. -/
theorem ParseEvent_errSignature_iff_witness :
    isOutOfRangeTimestamp Fixture.env.nowUnix (str "01533878462") = false ∧
      ReturnsError (ParseEvent Fixture.env Fixture.urlVerificationBody Fixture.signingSecret
        (str "01533878462") Fixture.requestBody Fixture.signature) errSignature :=
  ⟨by decide,
   (ParseEvent_errSignature_iff Fixture.env Fixture.urlVerificationBody Fixture.signingSecret
      Fixture.requestBody Fixture.signature (str "01533878462") (by decide)).mpr (by decide!)⟩

/-- C3: when the timestamp passes the freshness gate and `verifySSS` rejects the signature,
`ParseEvent` returns the empty event and the "Invalid request signature" error for every
raw event: nothing of the raw event is read. -/
theorem ParseEvent_rejected_any_rawEvent (env : Env JErr Template Payload)
    (secret timestamp body signature : Bytes)
    (hfresh : isOutOfRangeTimestamp env.nowUnix timestamp = false)
    (hrej : verifySSS env.hmacSHA256 secret (str "v0:" ++ timestamp ++ str ":" ++ body)
      signature = false) :
    ∀ rawEvent : Bytes,
      ParseEvent env rawEvent secret timestamp body signature =
        .ok (emptyEvent, some errSignature) :=
  fun rawEvent => ParseEvent_of_rejected env rawEvent secret timestamp body signature hfresh hrej

/-- Witness of C3: the request of `TestBadTokenVerification`, verified under the secret
`hoge`, with a well-formed and with a malformed raw event. -/
theorem ParseEvent_rejected_any_rawEvent_witness :
    ParseEvent Fixture.env Fixture.urlVerificationBody (str "hoge") Fixture.timestamp
        Fixture.requestBody Fixture.signature = .ok (emptyEvent, some errSignature) ∧
      ParseEvent Fixture.env Fixture.malformedBody (str "hoge") Fixture.timestamp
        Fixture.requestBody Fixture.signature = .ok (emptyEvent, some errSignature) :=
  have h := ParseEvent_rejected_any_rawEvent Fixture.env (str "hoge") Fixture.timestamp
    Fixture.requestBody Fixture.signature (by decide) (by decide!)
  ⟨h Fixture.urlVerificationBody, h Fixture.malformedBody⟩

/-- C4: when `isOutOfRangeTimestamp` holds of the timestamp, `ParseEvent` returns the empty
event and the "timestamp is out of current time" error, whatever the secret, the body, the
signature and the raw event: neither the HMAC nor a decoder is consulted. -/
theorem ParseEvent_stale_short_circuits (env : Env JErr Template Payload)
    (rawEvent secret timestamp body signature : Bytes)
    (hstale : isOutOfRangeTimestamp env.nowUnix timestamp = true) :
    ParseEvent env rawEvent secret timestamp body signature =
      .ok (emptyEvent, some errTimestamp) :=
  ParseEvent_of_stale env rawEvent secret timestamp body signature hstale

/-- Witness of C4: a timestamp some two hours old, with the signature that is valid for
that timestamp and body. -/
theorem ParseEvent_stale_short_circuits_witness :
    ParseEvent Fixture.env Fixture.urlVerificationBody Fixture.signingSecret
        (str "1533870000") Fixture.requestBody
        (expectedSignature hmacSHA256 Fixture.signingSecret (str "1533870000")
          Fixture.requestBody) =
      .ok (emptyEvent, some errTimestamp) :=
  ParseEvent_stale_short_circuits Fixture.env Fixture.urlVerificationBody
    Fixture.signingSecret (str "1533870000") Fixture.requestBody _ (by decide)

end Gates

/-- C5, at the failing input: with the clock at 1533878462, the timestamp
`-9223372035320897346` parses, lies 2^63 seconds from the clock, and is accepted by the
freshness gate: the `int64` subtraction wraps to the least `int64`, of which the branch-free
`abs` returns a negative number.  With the clock at the greatest `int64`, the
timestamp `-9223372036854775808` is accepted likewise, the subtraction wrapping to `-1`. -/
theorem isOutOfRangeTimestamp_wraps :
    Atoi (str "-9223372035320897346") = some (-9223372035320897346) ∧
      |(1533878462 : Int) - (-9223372035320897346)| > 300 ∧
      isOutOfRangeTimestamp 1533878462 (str "-9223372035320897346") = false ∧
      Atoi (str "-9223372036854775808") = some (-9223372036854775808) ∧
      isOutOfRangeTimestamp 9223372036854775807 (str "-9223372036854775808") = false := by
  refine ⟨by decide, by norm_num, by decide, by decide, by decide⟩

/-! ## Decoding after the gates -/

section Decode

variable {JErr Template Payload : Type}

/-- The result of `parseOuterEvent` on a body that does not decode as an envelope. -/
theorem parseOuterEvent_of_error (env : Env JErr Template Payload) (rawE : Bytes)
    (cause : JErr) (h : env.unmarshalEvent rawE = .error cause) :
    parseOuterEvent env rawE =
      (unmarshallingErrorEvent [] [] (.json cause), some (.json cause)) := by
  unfold parseOuterEvent
  rw [h]

/-- The result of decoding a body that does not decode as an envelope: the error, and
the empty event in place of the event that `parseOuterEvent` has built. -/
theorem decodeEvent_of_error (env : Env JErr Template Payload) (rawEvent : Bytes)
    (cause : JErr) (h : env.unmarshalEvent rawEvent = .error cause) :
    decodeEvent env rawEvent = .ok (emptyEvent, some (.json cause)) := by
  unfold decodeEvent
  rw [parseOuterEvent_of_error env rawEvent cause h]

/-- The result of `parseOuterEvent` on a callback envelope. -/
theorem parseOuterEvent_of_callback (env : Env JErr Template Payload) (rawE : Bytes)
    (e : EventsAPIEvent JErr Payload) (cb : EventsAPICallbackEvent)
    (he : env.unmarshalEvent rawE = .ok e) (ht : e.Type_ = CallbackEvent)
    (hcb : env.unmarshalCallbackEvent rawE = .ok cb) :
    parseOuterEvent env rawE =
      ({ Token := e.Token, TeamID := e.TeamID, Type_ := CallbackEvent, Data := .callback cb,
         InnerEvent := emptyInnerEvent }, none) := by
  unfold parseOuterEvent
  rw [he]
  simp only [ht, if_true, hcb]

/-- The result of `parseOuterEvent` on an envelope that is not a callback. -/
theorem parseOuterEvent_of_other (env : Env JErr Template Payload) (rawE : Bytes)
    (e : EventsAPIEvent JErr Payload) (u : EventsAPIURLVerificationEvent)
    (he : env.unmarshalEvent rawE = .ok e) (ht : e.Type_ ≠ CallbackEvent)
    (hu : env.unmarshalURLVerificationEvent rawE = .ok u) :
    parseOuterEvent env rawE =
      ({ Token := e.Token, TeamID := e.TeamID, Type_ := e.Type_, Data := .urlVerification u,
         InnerEvent := emptyInnerEvent }, none) := by
  unfold parseOuterEvent
  rw [he]
  simp only [ht, if_false, hu]

/-- Decoding a callback envelope hands over to `parseInnerEvent`. -/
theorem decodeEvent_of_callback (env : Env JErr Template Payload) (rawEvent : Bytes)
    (e : EventsAPIEvent JErr Payload) (cb : EventsAPICallbackEvent)
    (he : env.unmarshalEvent rawEvent = .ok e) (ht : e.Type_ = CallbackEvent)
    (hcb : env.unmarshalCallbackEvent rawEvent = .ok cb) :
    decodeEvent env rawEvent =
      match parseInnerEvent env cb with
      | .error p => .error p
      | .ok (innerEvent, some err) =>
        .ok (unmarshallingErrorEvent [] []
              (.text (str "EventsAPI Error parsing inner event: " ++ innerEvent.Type_ ++
                str ", " ++ err.Error env.jsonText)),
             some (.text (str "EventsAPI Error parsing inner event: " ++ innerEvent.Type_ ++
                str ", " ++ err.Error env.jsonText)))
      | .ok (innerEvent, none) => .ok (innerEvent, none) := by
  unfold decodeEvent
  rw [parseOuterEvent_of_callback env rawEvent e cb he ht hcb]
  simp only [if_true]

/-- Decoding an envelope that is not a callback. -/
theorem decodeEvent_of_other (env : Env JErr Template Payload) (rawEvent : Bytes)
    (e : EventsAPIEvent JErr Payload) (u : EventsAPIURLVerificationEvent)
    (he : env.unmarshalEvent rawEvent = .ok e) (ht : e.Type_ ≠ CallbackEvent)
    (hu : env.unmarshalURLVerificationEvent rawEvent = .ok u) :
    decodeEvent env rawEvent =
      .ok ({ Token := e.Token, TeamID := e.TeamID, Type_ := e.Type_,
             Data := .urlVerification u, InnerEvent := emptyInnerEvent }, none) := by
  unfold decodeEvent
  rw [parseOuterEvent_of_other env rawEvent e u he ht hu]
  simp only [ht, if_false, hu]

/-- The result of `parseInnerEvent` on an inner event of a registered type that decodes. -/
theorem parseInnerEvent_of_registered (env : Env JErr Template Payload)
    (cb : EventsAPICallbackEvent) (inner : Bytes) (iE : SlackEvent) (v : Template)
    (payload : Payload) (hin : cb.InnerEvent = some inner)
    (htag : env.unmarshalSlackEvent inner = .ok iE) (hreg : eventsMap env iE.Type_ = some v)
    (hdec : env.unmarshalNew v inner = .ok payload) :
    parseInnerEvent env cb =
      .ok ({ Token := cb.Token, TeamID := cb.TeamID, Type_ := cb.Type_, Data := .callback cb,
             InnerEvent := { Type_ := iE.Type_, Data := some payload } }, none) := by
  unfold parseInnerEvent
  rw [hin]
  simp only [htag, hreg, hdec]

/-- The result of `parseInnerEvent` on an inner event of a type that no registry has. -/
theorem parseInnerEvent_of_unknown (env : Env JErr Template Payload)
    (cb : EventsAPICallbackEvent) (inner : Bytes) (iE : SlackEvent)
    (hin : cb.InnerEvent = some inner) (htag : env.unmarshalSlackEvent inner = .ok iE)
    (h1 : env.EventsAPIInnerEventMapping iE.Type_ = none)
    (h2 : env.EventMapping iE.Type_ = none) :
    parseInnerEvent env cb =
      .ok ({ Token := cb.Token, TeamID := cb.TeamID, Type_ := iE.Type_, Data := .nil,
             InnerEvent := emptyInnerEvent },
           some (.text (str "Inner Event does not exist! " ++ iE.Type_))) := by
  have hreg : eventsMap env iE.Type_ = none := by
    unfold eventsMap
    rw [h1, h2]
  unfold parseInnerEvent
  rw [hin]
  simp only [htag, hreg]

end Decode

/-! ## The bytes signed and the bytes decoded -/

section Claims

variable {JErr Template Payload : Type}

/-- C6, counterexample: the call of `TestParseURLVerificationEvent` passes the signature
step over the body `dummy body` and returns the event decoded from the raw event, which is
other bytes: the signed body is not even JSON, and decoding it in place of the raw event
gives another result. -/
theorem ParseEvent_decodes_unsigned_bytes :
    verifySSS Fixture.env.hmacSHA256 Fixture.signingSecret
        (verifySlackRequest Fixture.timestamp Fixture.requestBody) Fixture.signature = true ∧
      ParseEvent Fixture.env Fixture.urlVerificationBody Fixture.signingSecret
          Fixture.timestamp Fixture.requestBody Fixture.signature =
        .ok ({ Token := str "fake-token", TeamID := [], Type_ := URLVerification,
               Data := .urlVerification
                 { Token := str "fake-token", Challenge := str "aljdsflaji3jj",
                   Type_ := URLVerification },
               InnerEvent := emptyInnerEvent }, none) ∧
      Fixture.requestBody ≠ Fixture.urlVerificationBody ∧
      ParseEvent Fixture.env Fixture.requestBody Fixture.signingSecret
          Fixture.timestamp Fixture.requestBody Fixture.signature ≠
        ParseEvent Fixture.env Fixture.urlVerificationBody Fixture.signingSecret
          Fixture.timestamp Fixture.requestBody Fixture.signature := by
  have hurl := ParseEvent_of_pass Fixture.env Fixture.urlVerificationBody
    Fixture.signingSecret Fixture.timestamp Fixture.requestBody Fixture.signature
    Fixture.timestamp_fresh Fixture.verifySSS_eq
  have hbody := ParseEvent_of_pass Fixture.env Fixture.requestBody
    Fixture.signingSecret Fixture.timestamp Fixture.requestBody Fixture.signature
    Fixture.timestamp_fresh Fixture.verifySSS_eq
  refine ⟨Fixture.verifySSS_eq, ?_, by decide, ?_⟩
  · rw [hurl]; rfl
  · rw [hurl, hbody]
    have h1 : decodeEvent Fixture.env Fixture.requestBody =
        .ok (emptyEvent,
          some (.json (str "invalid character \x27d\x27 looking for beginning of value"))) :=
      rfl
    have h2 : decodeEvent Fixture.env Fixture.urlVerificationBody =
        .ok ({ Token := str "fake-token", TeamID := [], Type_ := URLVerification,
               Data := .urlVerification
                 { Token := str "fake-token", Challenge := str "aljdsflaji3jj",
                   Type_ := URLVerification },
               InnerEvent := emptyInnerEvent }, none) := rfl
    rw [h1, h2]
    simp

/-- `parseOuterEvent` consults the envelope decoders at the raw event and nowhere else. -/
theorem parseOuterEvent_congr (env env' : Env JErr Template Payload) (rawE : Bytes)
    (hev : env'.unmarshalEvent rawE = env.unmarshalEvent rawE)
    (hcb : env'.unmarshalCallbackEvent rawE = env.unmarshalCallbackEvent rawE)
    (hurl : env'.unmarshalURLVerificationEvent rawE =
      env.unmarshalURLVerificationEvent rawE) :
    parseOuterEvent env' rawE = parseOuterEvent env rawE := by
  unfold parseOuterEvent
  rw [hev, hcb, hurl]

/-- `parseInnerEvent` consults the inner decoders and the registries only. -/
theorem parseInnerEvent_congr (env env' : Env JErr Template Payload)
    (cb : EventsAPICallbackEvent)
    (hslack : env'.unmarshalSlackEvent = env.unmarshalSlackEvent)
    (hnew : env'.unmarshalNew = env.unmarshalNew)
    (hreg : env'.EventsAPIInnerEventMapping = env.EventsAPIInnerEventMapping)
    (hleg : env'.EventMapping = env.EventMapping) :
    parseInnerEvent env' cb = parseInnerEvent env cb := by
  unfold parseInnerEvent eventsMap
  rw [hslack, hnew, hreg, hleg]

/-- `ParseEvent` reads its environment at these points only: the clock, the HMAC of
`"v0:" ++ timestamp ++ ":" ++ requestBody` under the secret, the three envelope decodings
of `rawEvent`, and the inner decoders, registries and error texts. -/
theorem ParseEvent_congr (env env' : Env JErr Template Payload)
    (rawEvent secret timestamp body signature : Bytes)
    (hclock : env'.nowUnix = env.nowUnix)
    (hhmac : env'.hmacSHA256 secret (str "v0:" ++ timestamp ++ str ":" ++ body) =
      env.hmacSHA256 secret (str "v0:" ++ timestamp ++ str ":" ++ body))
    (hev : env'.unmarshalEvent rawEvent = env.unmarshalEvent rawEvent)
    (hcb : env'.unmarshalCallbackEvent rawEvent = env.unmarshalCallbackEvent rawEvent)
    (hurl : env'.unmarshalURLVerificationEvent rawEvent =
      env.unmarshalURLVerificationEvent rawEvent)
    (hslack : env'.unmarshalSlackEvent = env.unmarshalSlackEvent)
    (hnew : env'.unmarshalNew = env.unmarshalNew)
    (hreg : env'.EventsAPIInnerEventMapping = env.EventsAPIInnerEventMapping)
    (hleg : env'.EventMapping = env.EventMapping)
    (htext : env'.jsonText = env.jsonText) :
    ParseEvent env' rawEvent secret timestamp body signature =
      ParseEvent env rawEvent secret timestamp body signature := by
  have hv : verifySSS env'.hmacSHA256 secret (verifySlackRequest timestamp body) signature =
      verifySSS env.hmacSHA256 secret (verifySlackRequest timestamp body) signature := by
    unfold verifySSS verifySlackRequest
    rw [hhmac]
  have hin : ∀ cb, parseInnerEvent env' cb = parseInnerEvent env cb :=
    fun cb => parseInnerEvent_congr env env' cb hslack hnew hreg hleg
  unfold ParseEvent
  rw [hclock, hv, parseOuterEvent_congr env env' rawEvent hev hcb hurl, hurl, htext]
  simp only [hin]

/-- The decoding stage, spelt out on the decodings of the raw event. -/
theorem decodeEvent_eq (env : Env JErr Template Payload) (rawEvent : Bytes) :
    decodeEvent env rawEvent =
      match env.unmarshalEvent rawEvent with
      | .error cause => .ok (emptyEvent, some (.json cause))
      | .ok e =>
        if e.Type_ = CallbackEvent then
          match env.unmarshalCallbackEvent rawEvent with
          | .error cause => .ok (emptyEvent, some (.json cause))
          | .ok cb =>
            match parseInnerEvent env cb with
            | .error p => .error p
            | .ok (innerEvent, some err) =>
              .ok (unmarshallingErrorEvent [] []
                    (.text (str "EventsAPI Error parsing inner event: " ++
                      innerEvent.Type_ ++ str ", " ++ err.Error env.jsonText)),
                   some (.text (str "EventsAPI Error parsing inner event: " ++
                      innerEvent.Type_ ++ str ", " ++ err.Error env.jsonText)))
            | .ok (innerEvent, none) => .ok (innerEvent, none)
        else
          match env.unmarshalURLVerificationEvent rawEvent with
          | .error cause => .ok (emptyEvent, some (.json cause))
          | .ok u =>
            .ok ({ Token := e.Token, TeamID := e.TeamID, Type_ := e.Type_,
                   Data := .urlVerification u, InnerEvent := emptyInnerEvent }, none) := by
  cases he : env.unmarshalEvent rawEvent with
  | error cause => exact decodeEvent_of_error env rawEvent cause he
  | ok e =>
    by_cases ht : e.Type_ = CallbackEvent
    · simp only [ht, if_true]
      cases hcb : env.unmarshalCallbackEvent rawEvent with
      | error cause =>
        unfold decodeEvent parseOuterEvent
        rw [he]
        simp only [ht, if_true, hcb]
      | ok cb => exact decodeEvent_of_callback env rawEvent e cb he ht hcb
    · simp only [ht, if_false]
      cases hu : env.unmarshalURLVerificationEvent rawEvent with
      | error cause =>
        unfold decodeEvent parseOuterEvent
        rw [he]
        simp only [ht, if_false, hu]
      | ok u => exact decodeEvent_of_other env rawEvent e u he ht hu

/-- C6, amended: `ParseEvent` verifies the signature over `requestBody` and decodes
`rawEvent`, each unmodified, and never compares the two.  For a call that passes both
gates: whether the signature step is passed does not depend on the raw event; the result
does not depend on the secret, timestamp, body and signature that brought it through; every
signature other than the one over `"v0:" ++ timestamp ++ ":" ++ body`, the body entering
byte for byte, is refused; the result is the one read off the decodings of `rawEvent`
itself, byte for byte; and it is the same in every environment that has the same HMAC of
that one string and the same decodings of that one raw event. -/
theorem ParseEvent_signs_body_decodes_rawEvent (env : Env JErr Template Payload)
    (rawEvent rawEvent' secret timestamp body signature secret' timestamp' body'
      signature' : Bytes)
    (hfresh : isOutOfRangeTimestamp env.nowUnix timestamp = false)
    (hsig : signature = expectedSignature env.hmacSHA256 secret timestamp body)
    (hfresh' : isOutOfRangeTimestamp env.nowUnix timestamp' = false)
    (hsig' : signature' = expectedSignature env.hmacSHA256 secret' timestamp' body') :
    ¬ ReturnsError (ParseEvent env rawEvent' secret timestamp body signature) errSignature ∧
      ParseEvent env rawEvent secret timestamp body signature =
        ParseEvent env rawEvent secret' timestamp' body' signature' ∧
      (∀ sig : Bytes,
        sig ≠ str "v0=" ++
          EncodeToString (env.hmacSHA256 secret (str "v0:" ++ timestamp ++ str ":" ++ body)) →
        ParseEvent env rawEvent secret timestamp body sig =
          .ok (emptyEvent, some errSignature)) ∧
      ParseEvent env rawEvent secret timestamp body signature =
        (match env.unmarshalEvent rawEvent with
        | .error cause => .ok (emptyEvent, some (.json cause))
        | .ok e =>
          if e.Type_ = CallbackEvent then
            match env.unmarshalCallbackEvent rawEvent with
            | .error cause => .ok (emptyEvent, some (.json cause))
            | .ok cb =>
              match parseInnerEvent env cb with
              | .error p => .error p
              | .ok (innerEvent, some err) =>
                .ok (unmarshallingErrorEvent [] []
                      (.text (str "EventsAPI Error parsing inner event: " ++
                        innerEvent.Type_ ++ str ", " ++ err.Error env.jsonText)),
                     some (.text (str "EventsAPI Error parsing inner event: " ++
                        innerEvent.Type_ ++ str ", " ++ err.Error env.jsonText)))
              | .ok (innerEvent, none) => .ok (innerEvent, none)
          else
            match env.unmarshalURLVerificationEvent rawEvent with
            | .error cause => .ok (emptyEvent, some (.json cause))
            | .ok u =>
              .ok ({ Token := e.Token, TeamID := e.TeamID, Type_ := e.Type_,
                     Data := .urlVerification u, InnerEvent := emptyInnerEvent }, none)) ∧
      (∀ env' : Env JErr Template Payload,
        env'.nowUnix = env.nowUnix →
        env'.hmacSHA256 secret (str "v0:" ++ timestamp ++ str ":" ++ body) =
          env.hmacSHA256 secret (str "v0:" ++ timestamp ++ str ":" ++ body) →
        env'.unmarshalEvent rawEvent = env.unmarshalEvent rawEvent →
        env'.unmarshalCallbackEvent rawEvent = env.unmarshalCallbackEvent rawEvent →
        env'.unmarshalURLVerificationEvent rawEvent =
          env.unmarshalURLVerificationEvent rawEvent →
        env'.unmarshalSlackEvent = env.unmarshalSlackEvent →
        env'.unmarshalNew = env.unmarshalNew →
        env'.EventsAPIInnerEventMapping = env.EventsAPIInnerEventMapping →
        env'.EventMapping = env.EventMapping →
        env'.jsonText = env.jsonText →
        ParseEvent env' rawEvent secret timestamp body signature =
          ParseEvent env rawEvent secret timestamp body signature) := by
  have hok := (verifySSS_iff env.hmacSHA256 secret timestamp body signature).mpr hsig
  have hok' := (verifySSS_iff env.hmacSHA256 secret' timestamp' body' signature').mpr hsig'
  refine ⟨?_, ?_, ?_, ?_, ?_⟩
  · rw [ParseEvent_of_pass env rawEvent' secret timestamp body signature hfresh hok]
    exact (decodeEvent_not_gateError env rawEvent').2
  · rw [ParseEvent_of_pass env rawEvent secret timestamp body signature hfresh hok,
      ParseEvent_of_pass env rawEvent secret' timestamp' body' signature' hfresh' hok']
  · intro sig hne
    have hrej : verifySSS env.hmacSHA256 secret (verifySlackRequest timestamp body) sig =
        false := by
      rw [Bool.eq_false_iff]
      intro h
      exact hne ((verifySSS_iff env.hmacSHA256 secret timestamp body sig).mp h)
    exact ParseEvent_of_rejected env rawEvent secret timestamp body sig hfresh hrej
  · rw [ParseEvent_of_pass env rawEvent secret timestamp body signature hfresh hok]
    exact decodeEvent_eq env rawEvent
  · intro env' hclock hhmac hev hcb hurl hslack hnew hreg hleg htext
    exact ParseEvent_congr env env' rawEvent secret timestamp body signature hclock hhmac
      hev hcb hurl hslack hnew hreg hleg htext

/-- Witness of C6, amended: the tests' request, against a request that signs the raw event
itself under another secret; and the tests' request in every environment that differs from
the concrete one only away from the signed string and the raw event. -/
theorem ParseEvent_signs_body_decodes_rawEvent_witness :
    ¬ ReturnsError (ParseEvent Fixture.env Fixture.malformedBody Fixture.signingSecret
        Fixture.timestamp Fixture.requestBody Fixture.signature) errSignature ∧
      ParseEvent Fixture.env Fixture.urlVerificationBody Fixture.signingSecret
          Fixture.timestamp Fixture.requestBody Fixture.signature =
        ParseEvent Fixture.env Fixture.urlVerificationBody (str "hoge") (str "1533878500")
          Fixture.urlVerificationBody
          (expectedSignature hmacSHA256 (str "hoge") (str "1533878500")
            Fixture.urlVerificationBody) ∧
      ∀ env' : Env Fixture.JErr Fixture.Template Fixture.Payload,
        env'.nowUnix = Fixture.env.nowUnix →
        env'.hmacSHA256 Fixture.signingSecret
            (str "v0:" ++ Fixture.timestamp ++ str ":" ++ Fixture.requestBody) =
          Fixture.env.hmacSHA256 Fixture.signingSecret
            (str "v0:" ++ Fixture.timestamp ++ str ":" ++ Fixture.requestBody) →
        env'.unmarshalEvent Fixture.urlVerificationBody =
          Fixture.env.unmarshalEvent Fixture.urlVerificationBody →
        env'.unmarshalCallbackEvent Fixture.urlVerificationBody =
          Fixture.env.unmarshalCallbackEvent Fixture.urlVerificationBody →
        env'.unmarshalURLVerificationEvent Fixture.urlVerificationBody =
          Fixture.env.unmarshalURLVerificationEvent Fixture.urlVerificationBody →
        env'.unmarshalSlackEvent = Fixture.env.unmarshalSlackEvent →
        env'.unmarshalNew = Fixture.env.unmarshalNew →
        env'.EventsAPIInnerEventMapping = Fixture.env.EventsAPIInnerEventMapping →
        env'.EventMapping = Fixture.env.EventMapping →
        env'.jsonText = Fixture.env.jsonText →
        ParseEvent env' Fixture.urlVerificationBody Fixture.signingSecret
            Fixture.timestamp Fixture.requestBody Fixture.signature =
          ParseEvent Fixture.env Fixture.urlVerificationBody Fixture.signingSecret
            Fixture.timestamp Fixture.requestBody Fixture.signature :=
  have h := ParseEvent_signs_body_decodes_rawEvent Fixture.env Fixture.urlVerificationBody
    Fixture.malformedBody Fixture.signingSecret Fixture.timestamp Fixture.requestBody
    Fixture.signature (str "hoge") (str "1533878500") Fixture.urlVerificationBody _
    Fixture.timestamp_fresh Fixture.signature_eq (by decide) rfl
  ⟨h.1, h.2.1, h.2.2.2.2⟩

/-- C7: an authenticated, fresh request whose raw event decodes as a callback envelope of
type `event_callback`, with an inner event whose type tag is in the registry and whose
inner JSON decodes into the registered shape, is returned without error: the event has type
`event_callback`, the token and team of the callback envelope, the callback envelope as
`Data`, and as inner event the tag with the decoded instance of the registered shape. -/
theorem ParseEvent_callback_dispatch (env : Env JErr Template Payload)
    (rawEvent secret timestamp body signature inner : Bytes)
    (e : EventsAPIEvent JErr Payload) (cb : EventsAPICallbackEvent) (iE : SlackEvent)
    (v : Template) (payload : Payload)
    (hfresh : isOutOfRangeTimestamp env.nowUnix timestamp = false)
    (hsig : signature = expectedSignature env.hmacSHA256 secret timestamp body)
    (he : env.unmarshalEvent rawEvent = .ok e) (ht : e.Type_ = CallbackEvent)
    (hcb : env.unmarshalCallbackEvent rawEvent = .ok cb) (hcbt : cb.Type_ = CallbackEvent)
    (hin : cb.InnerEvent = some inner) (htag : env.unmarshalSlackEvent inner = .ok iE)
    (hreg : eventsMap env iE.Type_ = some v)
    (hdec : env.unmarshalNew v inner = .ok payload) :
    ParseEvent env rawEvent secret timestamp body signature =
      .ok ({ Token := cb.Token, TeamID := cb.TeamID, Type_ := str "event_callback",
             Data := .callback cb,
             InnerEvent := { Type_ := iE.Type_, Data := some payload } }, none) := by
  have hok := (verifySSS_iff env.hmacSHA256 secret timestamp body signature).mpr hsig
  rw [ParseEvent_of_pass env rawEvent secret timestamp body signature hfresh hok,
    decodeEvent_of_callback env rawEvent e cb he ht hcb,
    parseInnerEvent_of_registered env cb inner iE v payload hin htag hreg hdec, hcbt]
  rfl

set_option maxRecDepth 100000 in
/-- Witness of C7: the callback of the tests, whose inner event is an `app_mention`; the
inner data is the app-mention shape decoded from the inner JSON. -/
theorem ParseEvent_callback_dispatch_witness :
    ParseEvent Fixture.env Fixture.callbackBody Fixture.signingSecret Fixture.timestamp
        Fixture.requestBody Fixture.signature =
      .ok ({ Token := str "XXYYZZ", TeamID := str "TXXXXXXXX", Type_ := str "event_callback",
             Data := .callback
               { Type_ := str "event_callback", Token := str "XXYYZZ",
                 TeamID := str "TXXXXXXXX", APIAppID := str "AXXXXXXXXX",
                 InnerEvent := some Fixture.appMentionInner,
                 AuthedUsers := [str "UXXXXXXX1"], EventID := str "Ev08MFMKH6",
                 EventTime := 1234567890 },
             InnerEvent :=
               { Type_ := str "app_mention",
                 Data := some (.appMention
                   { Type_ := str "app_mention", User := str "UXXXXXXX1", Text := [],
                     TimeStamp := [], Channel := [],
                     EventTimeStamp := str "1234567890.123456" }) } }, none) :=
  ParseEvent_callback_dispatch Fixture.env Fixture.callbackBody Fixture.signingSecret
    Fixture.timestamp Fixture.requestBody Fixture.signature Fixture.appMentionInner
    _ _ { Type_ := str "app_mention" } .appMentionEvent _
    Fixture.timestamp_fresh Fixture.signature_eq rfl rfl rfl rfl rfl rfl rfl rfl

/-- C8: an authenticated, fresh request whose raw event decodes as an envelope of type
`url_verification` is returned without error: the event has type `url_verification`, the
token of the envelope, the decoded URL-verification shape (with the challenge of the body)
as `Data`, and the empty inner event. -/
theorem ParseEvent_urlVerification (env : Env JErr Template Payload)
    (rawEvent secret timestamp body signature : Bytes)
    (e : EventsAPIEvent JErr Payload) (u : EventsAPIURLVerificationEvent)
    (hfresh : isOutOfRangeTimestamp env.nowUnix timestamp = false)
    (hsig : signature = expectedSignature env.hmacSHA256 secret timestamp body)
    (he : env.unmarshalEvent rawEvent = .ok e) (ht : e.Type_ = str "url_verification")
    (hu : env.unmarshalURLVerificationEvent rawEvent = .ok u) :
    ParseEvent env rawEvent secret timestamp body signature =
      .ok ({ Token := e.Token, TeamID := e.TeamID, Type_ := str "url_verification",
             Data := .urlVerification u, InnerEvent := emptyInnerEvent }, none) := by
  have hok := (verifySSS_iff env.hmacSHA256 secret timestamp body signature).mpr hsig
  have hne : e.Type_ ≠ CallbackEvent := by
    rw [ht]; decide
  rw [ParseEvent_of_pass env rawEvent secret timestamp body signature hfresh hok,
    decodeEvent_of_other env rawEvent e u he hne hu, ht]

/-- Witness of C8: the URL verification of the specification's scenario, whose challenge
is `aljdsflaji3jj`. -/
theorem ParseEvent_urlVerification_witness :
    ParseEvent Fixture.env Fixture.urlVerificationBody Fixture.signingSecret
        Fixture.timestamp Fixture.requestBody Fixture.signature =
      .ok ({ Token := str "fake-token", TeamID := [], Type_ := str "url_verification",
             Data := .urlVerification
               { Token := str "fake-token", Challenge := str "aljdsflaji3jj",
                 Type_ := str "url_verification" },
             InnerEvent := emptyInnerEvent }, none) :=
  ParseEvent_urlVerification Fixture.env Fixture.urlVerificationBody Fixture.signingSecret
    Fixture.timestamp Fixture.requestBody Fixture.signature _ _
    Fixture.timestamp_fresh Fixture.signature_eq rfl rfl rfl

/-- C9, counterexample: for the authenticated, fresh callback whose inner type
`definitely_not_real` is in no registry, the event that `ParseEvent` returns has an empty
token and team, the type `unmarshalling_error` and the error as `Data`; it retains neither
the envelope's token `XXYYZZ` nor its team `TXXXXXXXX`, its type is not the inner tag and its
`Data` is not nil. -/
theorem ParseEvent_unknownInner_drops_envelope :
    ∃ ev err,
      ParseEvent Fixture.env Fixture.unknownInnerBody Fixture.signingSecret
          Fixture.timestamp Fixture.requestBody Fixture.signature = .ok (ev, some err) ∧
        ev.Token = [] ∧ ev.Token ≠ str "XXYYZZ" ∧
        ev.TeamID = [] ∧ ev.TeamID ≠ str "TXXXXXXXX" ∧
        ev.Type_ = str "unmarshalling_error" ∧ ev.Type_ ≠ str "definitely_not_real" ∧
        ev.Data = .unmarshallingError err ∧ ev.Data ≠ .nil := by
  have h := ParseEvent_of_pass Fixture.env Fixture.unknownInnerBody
    Fixture.signingSecret Fixture.timestamp Fixture.requestBody Fixture.signature
    Fixture.timestamp_fresh Fixture.verifySSS_eq
  refine ⟨unmarshallingErrorEvent [] []
      (.text (str "EventsAPI Error parsing inner event: definitely_not_real, " ++
        str "Inner Event does not exist! definitely_not_real")),
    .text (str "EventsAPI Error parsing inner event: definitely_not_real, " ++
        str "Inner Event does not exist! definitely_not_real"), ?_, rfl, by decide, rfl,
    by decide, rfl, by decide, rfl, ?_⟩
  · rw [h]; rfl
  · intro hnil
    cases hnil

/-- C9, amended: an authenticated, fresh callback whose inner type tag `t` is in neither
registry is returned the error
`"EventsAPI Error parsing inner event: t, Inner Event does not exist! t"`, which names `t`,
with an event of empty token and team, of type `unmarshalling_error`, with that error as
`Data` and the empty inner event.  The event that retains the envelope's token and team,
with type `t` and `Data` nil, is the one that `parseInnerEvent` returns and `ParseEvent`
replaces. -/
theorem ParseEvent_unknownInner (env : Env JErr Template Payload)
    (rawEvent secret timestamp body signature inner : Bytes)
    (e : EventsAPIEvent JErr Payload) (cb : EventsAPICallbackEvent) (iE : SlackEvent)
    (hfresh : isOutOfRangeTimestamp env.nowUnix timestamp = false)
    (hsig : signature = expectedSignature env.hmacSHA256 secret timestamp body)
    (he : env.unmarshalEvent rawEvent = .ok e) (ht : e.Type_ = CallbackEvent)
    (hcb : env.unmarshalCallbackEvent rawEvent = .ok cb)
    (hin : cb.InnerEvent = some inner) (htag : env.unmarshalSlackEvent inner = .ok iE)
    (h1 : env.EventsAPIInnerEventMapping iE.Type_ = none)
    (h2 : env.EventMapping iE.Type_ = none) :
    ParseEvent env rawEvent secret timestamp body signature =
        .ok ({ Token := [], TeamID := [], Type_ := str "unmarshalling_error",
               Data := .unmarshallingError
                 (.text (str "EventsAPI Error parsing inner event: " ++ iE.Type_ ++
                   str ", " ++ (str "Inner Event does not exist! " ++ iE.Type_))),
               InnerEvent := emptyInnerEvent },
             some (.text (str "EventsAPI Error parsing inner event: " ++ iE.Type_ ++
               str ", " ++ (str "Inner Event does not exist! " ++ iE.Type_)))) ∧
      parseInnerEvent env cb =
        .ok ({ Token := cb.Token, TeamID := cb.TeamID, Type_ := iE.Type_, Data := .nil,
               InnerEvent := emptyInnerEvent },
             some (.text (str "Inner Event does not exist! " ++ iE.Type_))) := by
  have hok := (verifySSS_iff env.hmacSHA256 secret timestamp body signature).mpr hsig
  have hinner := parseInnerEvent_of_unknown env cb inner iE hin htag h1 h2
  refine ⟨?_, hinner⟩
  rw [ParseEvent_of_pass env rawEvent secret timestamp body signature hfresh hok,
    decodeEvent_of_callback env rawEvent e cb he ht hcb, hinner]
  rfl

set_option maxRecDepth 100000 in
/-- Witness of C9, amended: the callback whose inner type is `definitely_not_real`. -/
theorem ParseEvent_unknownInner_witness :
    ParseEvent Fixture.env Fixture.unknownInnerBody Fixture.signingSecret Fixture.timestamp
          Fixture.requestBody Fixture.signature =
        .ok ({ Token := [], TeamID := [], Type_ := str "unmarshalling_error",
               Data := .unmarshallingError
                 (.text (str "EventsAPI Error parsing inner event: " ++
                   str "definitely_not_real" ++ str ", " ++
                   (str "Inner Event does not exist! " ++ str "definitely_not_real"))),
               InnerEvent := emptyInnerEvent },
             some (.text (str "EventsAPI Error parsing inner event: " ++
               str "definitely_not_real" ++ str ", " ++
               (str "Inner Event does not exist! " ++ str "definitely_not_real")))) ∧
      parseInnerEvent Fixture.env
          { Type_ := CallbackEvent, Token := str "XXYYZZ", TeamID := str "TXXXXXXXX",
            APIAppID := [], InnerEvent := some Fixture.unknownInner, AuthedUsers := [],
            EventID := [], EventTime := 0 } =
        .ok ({ Token := str "XXYYZZ", TeamID := str "TXXXXXXXX",
               Type_ := str "definitely_not_real", Data := .nil,
               InnerEvent := emptyInnerEvent },
             some (.text (str "Inner Event does not exist! " ++
               str "definitely_not_real"))) :=
  ParseEvent_unknownInner Fixture.env Fixture.unknownInnerBody Fixture.signingSecret
    Fixture.timestamp Fixture.requestBody Fixture.signature Fixture.unknownInner
    _ _ { Type_ := str "definitely_not_real" }
    Fixture.timestamp_fresh Fixture.signature_eq rfl rfl rfl rfl rfl rfl rfl

/-- C10, at the failing input: for the authenticated, fresh request whose raw event is
the malformed body of the one byte that opens a JSON object, `parseOuterEvent` builds
the event of type `unmarshalling_error` that carries the cause, and `ParseEvent` returns
the empty event in its place, with the parse error: the returned type is empty and the
returned `Data` is nil. -/
theorem ParseEvent_malformed_returns_emptyEvent :
    parseOuterEvent Fixture.env Fixture.malformedBody =
        ({ Token := [], TeamID := [], Type_ := str "unmarshalling_error",
           Data := .unmarshallingError (.json (str "unexpected end of JSON input")),
           InnerEvent := emptyInnerEvent },
         some (.json (str "unexpected end of JSON input"))) ∧
      ParseEvent Fixture.env Fixture.malformedBody Fixture.signingSecret Fixture.timestamp
          Fixture.requestBody Fixture.signature =
        .ok ({ Token := [], TeamID := [], Type_ := [], Data := .nil,
               InnerEvent := emptyInnerEvent },
             some (.json (str "unexpected end of JSON input"))) := by
  have h := ParseEvent_of_pass Fixture.env Fixture.malformedBody
    Fixture.signingSecret Fixture.timestamp Fixture.requestBody Fixture.signature
    Fixture.timestamp_fresh Fixture.verifySSS_eq
  refine ⟨rfl, ?_⟩
  rw [h]; rfl

end Claims

/-! ## Forged signatures, other envelopes, registries, malformed timestamps -/

section Rejection

variable {JErr Template Payload : Type}

theorem errSignature_ne_errTimestamp : (errSignature : GoError JErr) ≠ errTimestamp := by
  unfold errSignature errTimestamp
  intro h
  injection h with h
  exact absurd h (by decide)

/-- C11, counterexample: with a timestamp some two hours old, the tests' signature is forged
(it is not the signature of that timestamp and body), and `ParseEvent` returns the
"timestamp is out of current time" error, not the "Invalid request signature" error. -/
theorem ParseEvent_forged_stale :
    Fixture.signature ≠
        str "v0=" ++ EncodeToString (Fixture.env.hmacSHA256 Fixture.signingSecret
          (str "v0:" ++ str "1533870000" ++ str ":" ++ Fixture.requestBody)) ∧
      ParseEvent Fixture.env Fixture.urlVerificationBody Fixture.signingSecret
          (str "1533870000") Fixture.requestBody Fixture.signature =
        .ok (emptyEvent, some errTimestamp) ∧
      ¬ ReturnsError (ParseEvent Fixture.env Fixture.urlVerificationBody
          Fixture.signingSecret (str "1533870000") Fixture.requestBody Fixture.signature)
        errSignature := by
  have h := ParseEvent_of_stale Fixture.env Fixture.urlVerificationBody
    Fixture.signingSecret (str "1533870000") Fixture.requestBody Fixture.signature
    (by decide)
  refine ⟨by decide!, h, ?_⟩
  rintro ⟨ev, hev⟩
  rw [h] at hev
  simp only [Except.ok.injEq, Prod.mk.injEq, Option.some.injEq] at hev
  exact absurd hev.2 (by decide)

/-- C11, amended: a request whose signature is forged, that is, differs from `"v0="`
followed by the lowercase hex of the HMAC-SHA256 of `"v0:" ++ ts ++ ":" ++ body`, is
refused with the empty event whatever the raw event and the body: with the
"Invalid request signature" error when the timestamp passes the freshness gate, with the
"timestamp is out of current time" error when it does not. -/
theorem ParseEvent_forged (env : Env JErr Template Payload)
    (rawEvent secret ts body sig : Bytes)
    (hforged : sig ≠ str "v0=" ++
      EncodeToString (env.hmacSHA256 secret (str "v0:" ++ ts ++ str ":" ++ body))) :
    ParseEvent env rawEvent secret ts body sig =
      .ok (emptyEvent,
        some (if isOutOfRangeTimestamp env.nowUnix ts then errTimestamp else errSignature)) := by
  cases hgate : isOutOfRangeTimestamp env.nowUnix ts with
  | true => exact ParseEvent_of_stale env rawEvent secret ts body sig hgate
  | false =>
    have hrej : verifySSS env.hmacSHA256 secret (verifySlackRequest ts body) sig = false := by
      rw [Bool.eq_false_iff]
      intro h
      exact hforged ((verifySSS_iff env.hmacSHA256 secret ts body sig).mp h)
    exact ParseEvent_of_rejected env rawEvent secret ts body sig hgate hrej

/-- Witness of C11, amended: the request of `TestBadTokenVerification`, whose signature is
forged for the secret `hoge`, with a fresh timestamp. -/
theorem ParseEvent_forged_witness :
    ParseEvent Fixture.env Fixture.urlVerificationBody (str "hoge") Fixture.timestamp
        Fixture.requestBody Fixture.signature =
      .ok (emptyEvent,
        some (if isOutOfRangeTimestamp Fixture.env.nowUnix Fixture.timestamp then errTimestamp
          else errSignature)) :=
  ParseEvent_forged Fixture.env Fixture.urlVerificationBody (str "hoge") Fixture.timestamp
    Fixture.requestBody Fixture.signature (by decide!)

/-- C12: an authenticated, fresh request whose raw event decodes as an envelope of a type
other than `event_callback` and `url_verification` is returned without error: the event has
the type, token and team of the envelope, the body decoded into the URL-verification shape
as `Data`, and the empty inner event. -/
theorem ParseEvent_other_envelope (env : Env JErr Template Payload)
    (rawEvent secret timestamp body signature : Bytes)
    (e : EventsAPIEvent JErr Payload) (u : EventsAPIURLVerificationEvent)
    (hfresh : isOutOfRangeTimestamp env.nowUnix timestamp = false)
    (hsig : signature = expectedSignature env.hmacSHA256 secret timestamp body)
    (he : env.unmarshalEvent rawEvent = .ok e)
    (ht : e.Type_ ≠ str "event_callback" ∧ e.Type_ ≠ str "url_verification")
    (hu : env.unmarshalURLVerificationEvent rawEvent = .ok u) :
    ParseEvent env rawEvent secret timestamp body signature =
      .ok ({ Token := e.Token, TeamID := e.TeamID, Type_ := e.Type_,
             Data := .urlVerification u, InnerEvent := emptyInnerEvent }, none) := by
  have hok := (verifySSS_iff env.hmacSHA256 secret timestamp body signature).mpr hsig
  rw [ParseEvent_of_pass env rawEvent secret timestamp body signature hfresh hok]
  exact decodeEvent_of_other env rawEvent e u he ht.1 hu

/-- Witness of C12: an envelope of type `app_rate_limited`. -/
theorem ParseEvent_other_envelope_witness :
    ParseEvent Fixture.env Fixture.otherTypeBody Fixture.signingSecret Fixture.timestamp
        Fixture.requestBody Fixture.signature =
      .ok ({ Token := str "XXYYZZ", TeamID := str "TXXXXXXXX",
             Type_ := str "app_rate_limited",
             Data := .urlVerification
               { Token := str "XXYYZZ", Challenge := [], Type_ := str "app_rate_limited" },
             InnerEvent := emptyInnerEvent }, none) :=
  ParseEvent_other_envelope Fixture.env Fixture.otherTypeBody Fixture.signingSecret
    Fixture.timestamp Fixture.requestBody Fixture.signature _ _
    Fixture.timestamp_fresh Fixture.signature_eq rfl ⟨by decide, by decide⟩ rfl

/-- C13: `eventsMap` finds a tag exactly when the Events-API registry or the legacy
registry has it; a tag of the Events-API registry gets that registry's template, also
when the legacy registry has the tag too; the legacy template is returned only for a tag
that the Events-API registry lacks. -/
theorem eventsMap_lookup_order (env : Env JErr Template Payload) (t : Bytes) :
    ((eventsMap env t).isSome = true ↔
        (env.EventsAPIInnerEventMapping t).isSome = true ∨
          (env.EventMapping t).isSome = true) ∧
      (∀ v, env.EventsAPIInnerEventMapping t = some v → eventsMap env t = some v) ∧
      (env.EventsAPIInnerEventMapping t = none → eventsMap env t = env.EventMapping t) ∧
      (∀ v, eventsMap env t = some v → env.EventsAPIInnerEventMapping t ≠ some v →
        env.EventsAPIInnerEventMapping t = none ∧ env.EventMapping t = some v) := by
  unfold eventsMap
  cases h1 : env.EventsAPIInnerEventMapping t <;> cases h2 : env.EventMapping t <;> simp

/-- The lookups of C13 in the concrete registries: `message`, a tag of both, gets the
Events-API template; `user_typing`, a tag of the legacy registry alone, gets the legacy
template; `definitely_not_real` is found in neither. -/
theorem eventsMap_lookup_order_witness :
    eventsMap Fixture.env (str "message") = some .messageEvent ∧
      Fixture.env.EventMapping (str "message") = some .rtmMessageEvent ∧
      (Fixture.env.EventsAPIInnerEventMapping (str "user_typing") = none ∧
        Fixture.env.EventMapping (str "user_typing") = some .userTypingEvent) ∧
      ((eventsMap Fixture.env (str "definitely_not_real")).isSome = true ↔
        (Fixture.env.EventsAPIInnerEventMapping (str "definitely_not_real")).isSome = true ∨
          (Fixture.env.EventMapping (str "definitely_not_real")).isSome = true) :=
  ⟨(eventsMap_lookup_order Fixture.env (str "message")).2.1 .messageEvent rfl, rfl,
   (eventsMap_lookup_order Fixture.env (str "user_typing")).2.2.2 .userTypingEvent rfl
     (by decide),
   (eventsMap_lookup_order Fixture.env (str "definitely_not_real")).1⟩

/-- C14: a timestamp that `strconv.Atoi` does not parse (not a signed decimal integer, or
one outside the `int` range) is judged fresh at every clock value; `ParseEvent` then
never returns the "timestamp is out of current time" error, and returns the
"Invalid request signature" error exactly when the signature differs from the expected
one: the signature step decides. -/
theorem ParseEvent_malformed_timestamp (env : Env JErr Template Payload)
    (rawEvent secret timestamp body signature : Bytes) (now : Int)
    (hbad : Atoi timestamp = none) :
    isOutOfRangeTimestamp now timestamp = false ∧
      ¬ ReturnsError (ParseEvent env rawEvent secret timestamp body signature)
        errTimestamp ∧
      (ReturnsError (ParseEvent env rawEvent secret timestamp body signature)
          errSignature ↔
        signature ≠ str "v0=" ++ EncodeToString
          (env.hmacSHA256 secret (str "v0:" ++ timestamp ++ str ":" ++ body))) := by
  have hgate : ∀ n : Int, isOutOfRangeTimestamp n timestamp = false := by
    intro n
    unfold isOutOfRangeTimestamp
    rw [hbad]
  refine ⟨hgate now, ?_, ?_⟩
  · rintro ⟨ev, hev⟩
    cases hv : verifySSS env.hmacSHA256 secret (verifySlackRequest timestamp body) signature
    · rw [ParseEvent_of_rejected env rawEvent secret timestamp body signature
        (hgate _) hv] at hev
      simp only [Except.ok.injEq, Prod.mk.injEq, Option.some.injEq] at hev
      exact errSignature_ne_errTimestamp hev.2
    · rw [ParseEvent_of_pass env rawEvent secret timestamp body signature (hgate _) hv] at hev
      exact (decodeEvent_not_gateError env rawEvent).1 ⟨ev, hev⟩
  · constructor
    · rintro hret heq
      have hok := (verifySSS_iff env.hmacSHA256 secret timestamp body signature).mpr heq
      rw [ParseEvent_of_pass env rawEvent secret timestamp body signature (hgate _) hok]
        at hret
      exact (decodeEvent_not_gateError env rawEvent).2 hret
    · intro hne
      have hrej : verifySSS env.hmacSHA256 secret (verifySlackRequest timestamp body)
          signature = false := by
        rw [Bool.eq_false_iff]
        intro h
        exact hne ((verifySSS_iff env.hmacSHA256 secret timestamp body signature).mp h)
      exact ⟨emptyEvent,
        ParseEvent_of_rejected env rawEvent secret timestamp body signature (hgate _) hrej⟩

/-- Witness of C14: a timestamp one above the greatest `int64`, at the clock of the tests;
the empty and the non-numeric timestamp do not parse either. -/
theorem ParseEvent_malformed_timestamp_witness :
    Atoi (str "9223372036854775808") = none ∧ Atoi [] = none ∧ Atoi (str "12a") = none ∧
      isOutOfRangeTimestamp 1533878462 (str "9223372036854775808") = false ∧
      ¬ ReturnsError (ParseEvent Fixture.env Fixture.urlVerificationBody
          Fixture.signingSecret (str "9223372036854775808") Fixture.requestBody
          Fixture.signature) errTimestamp :=
  have h := ParseEvent_malformed_timestamp Fixture.env Fixture.urlVerificationBody
    Fixture.signingSecret (str "9223372036854775808") Fixture.requestBody Fixture.signature
    1533878462 (by decide)
  ⟨by decide, by decide, by decide, h.1, h.2.1⟩

end Rejection

/-! ## Symmetry of the window, form of the signature -/

theorem Atoi_of_decimalValue {s : Bytes} {i : Int} (h : decimalValue s = some i)
    (hr : InInt64 i) : Atoi s = some i := by
  unfold Atoi
  rw [h]
  simp only [hr, if_true]

/-- C15, counterexample: with the clock at 1533878462 and `k = 9223372035320897346`, the
decimal form of `now + k` is `9223372036854775808`, which `strconv.Atoi` does not parse, so
it is accepted; the decimal form of `now - k` parses, lies `k` seconds from the clock and
is refused. -/
theorem isOutOfRangeTimestamp_asymmetric :
    Itoa (1533878462 + 9223372035320897346) = str "9223372036854775808" ∧
      Itoa (1533878462 - 9223372035320897346) = str "-9223372033787018884" ∧
      isOutOfRangeTimestamp 1533878462 (Itoa (1533878462 + 9223372035320897346)) = false ∧
      isOutOfRangeTimestamp 1533878462 (Itoa (1533878462 - 9223372035320897346)) = true := by
  refine ⟨by decide, by decide, by decide, by decide⟩

/-- C15, amended: for every clock value `now` and every integer `k` such that `now + k` and
`now - k` both fit `int64`, the timestamps that are decimal forms of `now + k` and of
`now - k` get the same verdict from `isOutOfRangeTimestamp`, namely `|k| > 300`. -/
theorem isOutOfRangeTimestamp_symmetric (now k : Int) (s₁ s₂ : Bytes)
    (h₁ : decimalValue s₁ = some (now + k)) (h₂ : decimalValue s₂ = some (now - k))
    (hr₁ : InInt64 (now + k)) (hr₂ : InInt64 (now - k)) :
    isOutOfRangeTimestamp now s₁ = isOutOfRangeTimestamp now s₂ ∧
      isOutOfRangeTimestamp now s₁ = decide (|k| > 300) := by
  have hb₁ := hr₁
  have hb₂ := hr₂
  unfold InInt64 at hb₁ hb₂
  have e₁ := @isOutOfRangeTimestamp_eq now _ _ (Atoi_of_decimalValue h₁ hr₁)
    (by omega) (by omega)
  have e₂ := @isOutOfRangeTimestamp_eq now _ _ (Atoi_of_decimalValue h₂ hr₂)
    (by omega) (by omega)
  have a₁ : |now - (now + k)| = |k| := by
    rw [show now - (now + k) = -k by ring, abs_neg]
  have a₂ : |now - (now - k)| = |k| := by
    rw [show now - (now - k) = k by ring]
  rw [a₁] at e₁
  rw [a₂] at e₂
  exact ⟨e₁.trans e₂.symm, e₁⟩

/-- Witness of C15, amended: the clock of the tests and `k = 301`, written by
`strconv.Itoa`. -/
theorem isOutOfRangeTimestamp_symmetric_witness :
    isOutOfRangeTimestamp 1533878462 (Itoa (1533878462 + 301)) =
        isOutOfRangeTimestamp 1533878462 (Itoa (1533878462 - 301)) ∧
      isOutOfRangeTimestamp 1533878462 (Itoa (1533878462 + 301)) =
        decide (|(301 : Int)| > 300) :=
  isOutOfRangeTimestamp_symmetric 1533878462 301 _ _ (decimalValue_Itoa _)
    (decimalValue_Itoa _) (by decide) (by decide)

theorem hextable_lowerHex : ∀ n, n < 16 → isLowerHex (hextable.getD n 0) = true := by
  decide

theorem EncodeToString_length (bs : Bytes) : (EncodeToString bs).length = 2 * bs.length := by
  induction bs with
  | nil => rfl
  | cons b bs ih =>
    simp only [EncodeToString, List.length_cons, ih]
    omega

theorem EncodeToString_lowerHex (bs : Bytes) :
    ∀ c ∈ EncodeToString bs, isLowerHex c = true := by
  induction bs with
  | nil => intro c hc; cases hc
  | cons b bs ih =>
    intro c hc
    have hb : b.toNat < 256 := b.val.isLt
    simp only [EncodeToString, List.mem_cons] at hc
    rcases hc with rfl | rfl | hc
    · apply hextable_lowerHex
      rw [Nat.shiftRight_eq_div_pow]
      omega
    · apply hextable_lowerHex
      have := @Nat.and_le_right b.toNat 0x0f
      omega
    · exact ih c hc

/-- The tag of HMAC-SHA256 has 32 bytes. -/
theorem hmacSHA256_length (key msg : Bytes) : (hmacSHA256 key msg).length = 32 := by
  unfold hmacSHA256 SHA256.sum
  simp [SHA256.be32]

/-- C16: with an HMAC of 32-byte tags, as HMAC-SHA256 is, every signature that `verifySSS`
accepts has length 67, begins with `v0=` and continues with 64 characters that are all
lowercase hexadecimal digits. -/
theorem verifySSS_signature_form (hmac : Bytes → Bytes → Bytes)
    (secret request sig : Bytes)
    (hlen : ∀ key msg, (hmac key msg).length = 32)
    (hver : verifySSS hmac secret request sig = true) :
    sig.length = 67 ∧ sig.take 3 = str "v0=" ∧ (sig.drop 3).length = 64 ∧
      ∀ c ∈ sig.drop 3, isLowerHex c = true := by
  unfold verifySSS at hver
  simp only [decide_eq_true_eq] at hver
  subst hver
  have hl := EncodeToString_length (hmac secret request)
  rw [hlen] at hl
  have hd : (str "v0=" ++ EncodeToString (hmac secret request)).drop 3 =
      EncodeToString (hmac secret request) := rfl
  have ht : (str "v0=" ++ EncodeToString (hmac secret request)).take 3 = str "v0=" := rfl
  refine ⟨?_, ht, ?_, ?_⟩
  · rw [List.length_append, hl]; rfl
  · rw [hd, hl]
  · rw [hd]; exact EncodeToString_lowerHex _

/-- Witness of C16: the tests' signature has the form, and `verifySSS` refuses it when a
digit is in upper case, when the `v0=` is missing and when the version tag is `v1`. -/
theorem verifySSS_signature_form_witness :
    (Fixture.signature.length = 67 ∧ Fixture.signature.take 3 = str "v0=" ∧
        (Fixture.signature.drop 3).length = 64 ∧
        ∀ c ∈ Fixture.signature.drop 3, isLowerHex c = true) ∧
      verifySSS hmacSHA256 Fixture.signingSecret
        (verifySlackRequest Fixture.timestamp Fixture.requestBody)
        (str "v0=D1efdfee3e5d339a96d6cad2a1c03acbf86cee500d582a9ca3595aa2cb0d6274") = false ∧
      verifySSS hmacSHA256 Fixture.signingSecret
        (verifySlackRequest Fixture.timestamp Fixture.requestBody)
        (str "d1efdfee3e5d339a96d6cad2a1c03acbf86cee500d582a9ca3595aa2cb0d6274") = false ∧
      verifySSS hmacSHA256 Fixture.signingSecret
        (verifySlackRequest Fixture.timestamp Fixture.requestBody)
        (str "v1=d1efdfee3e5d339a96d6cad2a1c03acbf86cee500d582a9ca3595aa2cb0d6274") = false :=
  ⟨verifySSS_signature_form hmacSHA256 _ _ _ hmacSHA256_length Fixture.verifySSS_eq,
   Bool.eq_false_iff.mpr (fun h => absurd
     ((verifySSS_signature_form hmacSHA256 _ _ _ hmacSHA256_length h).2.2.2 68 (by decide))
     (by decide)),
   Bool.eq_false_iff.mpr (fun h => absurd
     (verifySSS_signature_form hmacSHA256 _ _ _ hmacSHA256_length h).1 (by decide)),
   Bool.eq_false_iff.mpr (fun h => absurd
     (verifySSS_signature_form hmacSHA256 _ _ _ hmacSHA256_length h).2.1 (by decide))⟩

/-! ## Shape of the results -/

section Shape

variable {JErr Template Payload : Type}

/-- What a successful `parseOuterEvent` has done: decoded the envelope, and then either the
callback shape, for the type `event_callback`, or the URL-verification shape. -/
theorem parseOuterEvent_success (env : Env JErr Template Payload) (rawE : Bytes)
    (ev : EventsAPIEvent JErr Payload) (h : parseOuterEvent env rawE = (ev, none)) :
    ∃ e, env.unmarshalEvent rawE = .ok e ∧
      ((e.Type_ = CallbackEvent ∧ ∃ cb, env.unmarshalCallbackEvent rawE = .ok cb ∧
          ev = { Token := e.Token, TeamID := e.TeamID, Type_ := e.Type_,
                 Data := .callback cb, InnerEvent := emptyInnerEvent }) ∨
        (e.Type_ ≠ CallbackEvent ∧ ∃ u, env.unmarshalURLVerificationEvent rawE = .ok u ∧
          ev = { Token := e.Token, TeamID := e.TeamID, Type_ := e.Type_,
                 Data := .urlVerification u, InnerEvent := emptyInnerEvent })) := by
  unfold parseOuterEvent at h
  split at h
  · simp at h
  · next e he =>
    refine ⟨e, he, ?_⟩
    split at h
    · next ht =>
      split at h
      · simp at h
      · next cb hcb =>
        simp only [Prod.mk.injEq, and_true] at h
        exact Or.inl ⟨ht, cb, hcb, h.symm⟩
    · next ht =>
      split at h
      · simp at h
      · next u hu =>
        simp only [Prod.mk.injEq, and_true] at h
        exact Or.inr ⟨ht, u, hu, h.symm⟩

/-- What `parseInnerEvent` returns: an event with an empty inner event, or, without error,
the event of the callback envelope with its type and the envelope as `Data`. -/
theorem parseInnerEvent_result (env : Env JErr Template Payload)
    (cb : EventsAPICallbackEvent) (ev : EventsAPIEvent JErr Payload)
    (err : Option (GoError JErr)) (h : parseInnerEvent env cb = .ok (ev, err)) :
    (ev.InnerEvent = emptyInnerEvent ∧ err ≠ none) ∨
      (err = none ∧ ev.Type_ = cb.Type_ ∧ ev.Data = .callback cb ∧
        ev.InnerEvent ≠ emptyInnerEvent) := by
  unfold parseInnerEvent at h
  split at h
  · simp at h
  · split at h
    · simp only [Except.ok.injEq, Prod.mk.injEq] at h
      rw [← h.1, ← h.2]
      exact Or.inl ⟨rfl, by simp⟩
    · split at h
      · simp only [Except.ok.injEq, Prod.mk.injEq] at h
        rw [← h.1, ← h.2]
        exact Or.inl ⟨rfl, by simp⟩
      · split at h
        · simp only [Except.ok.injEq, Prod.mk.injEq] at h
          rw [← h.1, ← h.2]
          exact Or.inl ⟨rfl, by simp⟩
        · simp only [Except.ok.injEq, Prod.mk.injEq] at h
          rw [← h.1, ← h.2]
          refine Or.inr ⟨rfl, rfl, rfl, ?_⟩
          intro hempty
          have := congrArg EventsAPIInnerEvent.Data hempty
          simp [emptyInnerEvent] at this

/-- The results of the decoding stage: an event with an empty inner event, or, without
error, the event that `parseInnerEvent` returns for the decoded callback envelope. -/
theorem decodeEvent_result (env : Env JErr Template Payload) (rawEvent : Bytes)
    (ev : EventsAPIEvent JErr Payload) (err : Option (GoError JErr))
    (h : decodeEvent env rawEvent = .ok (ev, err)) :
    ev.InnerEvent = emptyInnerEvent ∨
      (err = none ∧ ∃ e cb, env.unmarshalEvent rawEvent = .ok e ∧ e.Type_ = CallbackEvent ∧
        env.unmarshalCallbackEvent rawEvent = .ok cb ∧ ev.Type_ = cb.Type_ ∧
        ev.Data = .callback cb) := by
  unfold decodeEvent at h
  split at h
  · simp only [Except.ok.injEq, Prod.mk.injEq] at h
    rw [← h.1]
    exact Or.inl rfl
  · next e hpo =>
    obtain ⟨e₀, he₀, hcase⟩ := parseOuterEvent_success env rawEvent e hpo
    rcases hcase with ⟨ht, cb, hcb, rfl⟩ | ⟨ht, u, hu, rfl⟩
    · simp only [ht, if_true] at h
      split at h
      · simp at h
      · next innerEvent err' hin =>
        simp only [Except.ok.injEq, Prod.mk.injEq] at h
        rw [← h.1]
        exact Or.inl rfl
      · next innerEvent hin =>
        simp only [Except.ok.injEq, Prod.mk.injEq] at h
        obtain ⟨rfl, rfl⟩ := h
        rcases parseInnerEvent_result env cb innerEvent none hin with
          ⟨_, hne⟩ | ⟨_, hty, hd, _⟩
        · exact absurd rfl hne
        · exact Or.inr ⟨rfl, e₀, cb, he₀, ht, hcb, hty, hd⟩
    · simp only [ht, if_false] at h
      split at h
      · simp only [Except.ok.injEq, Prod.mk.injEq] at h
        rw [← h.1]
        exact Or.inl rfl
      · simp only [Except.ok.injEq, Prod.mk.injEq] at h
        rw [← h.1]
        exact Or.inl rfl

/-- The decoding stage does not fault at the type assertion. -/
theorem decodeEvent_ne_typeAssertion (env : Env JErr Template Payload) (rawEvent : Bytes) :
    decodeEvent env rawEvent ≠ .error .typeAssertion := by
  intro h
  unfold decodeEvent at h
  split at h
  · simp at h
  · next e hpo =>
    obtain ⟨e₀, he₀, hcase⟩ := parseOuterEvent_success env rawEvent e hpo
    rcases hcase with ⟨ht, cb, hcb, rfl⟩ | ⟨ht, u, hu, rfl⟩
    · simp only [ht, if_true] at h
      split at h
      · next p hin =>
        simp only [Except.error.injEq] at h
        subst h
        unfold parseInnerEvent at hin
        split at hin
        · simp at hin
        · split at hin
          · simp at hin
          · split at hin
            · simp at hin
            · split at hin <;> simp at hin
      · simp at h
      · simp at h
    · simp only [ht, if_false] at h
      split at h <;> simp at h

/-- The decoding stage faults when the callback envelope has no inner fragment. -/
theorem decodeEvent_of_nilInner (env : Env JErr Template Payload) (rawEvent : Bytes)
    (e : EventsAPIEvent JErr Payload) (cb : EventsAPICallbackEvent)
    (he : env.unmarshalEvent rawEvent = .ok e) (ht : e.Type_ = CallbackEvent)
    (hcb : env.unmarshalCallbackEvent rawEvent = .ok cb) (hin : cb.InnerEvent = none) :
    decodeEvent env rawEvent = .error .nilDereference := by
  have hp : parseInnerEvent env cb = .error .nilDereference := by
    unfold parseInnerEvent
    rw [hin]
  rw [decodeEvent_of_callback env rawEvent e cb he ht hcb, hp]

end Shape

/-! ## Inner event, faults, and the second decoding -/

section Results

variable {JErr Template Payload : Type}

/-- The tabulated decoders read one `type` into every shape. -/
theorem Fixture.typeKeyAgrees : TypeKeyAgrees Fixture.env := by
  intro raw e cb he hcb
  have hd : ∀ d, Fixture.envelope raw = .ok d → d.callback.Type_ = d.event.Type_ := by
    intro d hd
    unfold Fixture.envelope at hd
    repeat' split at hd
    all_goals first
      | (simp only [Except.ok.injEq] at hd; subst hd; rfl)
      | simp at hd
  simp only [Fixture.env] at he hcb
  cases hr : Fixture.envelope raw with
  | error c => rw [hr] at he; simp [Except.map] at he
  | ok d =>
    rw [hr] at he hcb
    simp only [Except.map, Except.ok.injEq] at he hcb
    rw [← he, ← hcb]
    exact hd d hr

/-- C17: whatever the input, when `ParseEvent` returns an event whose inner event is not
the empty value, the returned error is nil and the returned type is `event_callback`; in
every other outcome, that is with an error or with another type, the inner event is the
empty value.  The two decodings of the envelope are taken to read the same `type`. -/
theorem ParseEvent_innerEvent_only_callback (env : Env JErr Template Payload)
    (rawEvent secret timestamp body signature : Bytes)
    (ev : EventsAPIEvent JErr Payload) (err : Option (GoError JErr))
    (hkey : TypeKeyAgrees env)
    (hret : ParseEvent env rawEvent secret timestamp body signature = .ok (ev, err)) :
    (ev.InnerEvent ≠ emptyInnerEvent → err = none ∧ ev.Type_ = str "event_callback") ∧
      (err ≠ none ∨ ev.Type_ ≠ str "event_callback" → ev.InnerEvent = emptyInnerEvent) := by
  have hmain : ev.InnerEvent = emptyInnerEvent ∨
      (err = none ∧ ev.Type_ = str "event_callback") := by
    cases hgate : isOutOfRangeTimestamp env.nowUnix timestamp with
    | true =>
      rw [ParseEvent_of_stale env rawEvent secret timestamp body signature hgate] at hret
      simp only [Except.ok.injEq, Prod.mk.injEq] at hret
      rw [← hret.1]
      exact Or.inl rfl
    | false =>
      cases hv : verifySSS env.hmacSHA256 secret (verifySlackRequest timestamp body)
          signature with
      | false =>
        rw [ParseEvent_of_rejected env rawEvent secret timestamp body signature hgate hv]
          at hret
        simp only [Except.ok.injEq, Prod.mk.injEq] at hret
        rw [← hret.1]
        exact Or.inl rfl
      | true =>
        rw [ParseEvent_of_pass env rawEvent secret timestamp body signature hgate hv]
          at hret
        rcases decodeEvent_result env rawEvent ev err hret with
          h | ⟨herr, e, cb, he, ht, hcb, hty, _⟩
        · exact Or.inl h
        · refine Or.inr ⟨herr, ?_⟩
          rw [hty, hkey rawEvent e cb he hcb, ht]
          rfl
  constructor
  · intro hne
    rcases hmain with h | h
    · exact absurd h hne
    · exact h
  · intro hother
    rcases hmain with h | ⟨h1, h2⟩
    · exact h
    · rcases hother with h | h
      · exact absurd h1 h
      · exact absurd h2 h

set_option maxRecDepth 100000 in
/-- Witness of C17: the callback of the tests is returned with a nil error, the type
`event_callback` and the inner event `app_mention`. -/
theorem ParseEvent_innerEvent_only_callback_witness :
    ∃ ev err,
      ParseEvent Fixture.env Fixture.callbackBody Fixture.signingSecret Fixture.timestamp
          Fixture.requestBody Fixture.signature = .ok (ev, err) ∧
        ev.InnerEvent.Type_ = str "app_mention" ∧ ev.InnerEvent ≠ emptyInnerEvent ∧
        err = none ∧ ev.Type_ = str "event_callback" :=
  have hret : ParseEvent Fixture.env Fixture.callbackBody Fixture.signingSecret
      Fixture.timestamp Fixture.requestBody Fixture.signature =
      .ok ({ Token := str "XXYYZZ", TeamID := str "TXXXXXXXX",
             Type_ := str "event_callback",
             Data := .callback
               { Type_ := str "event_callback", Token := str "XXYYZZ",
                 TeamID := str "TXXXXXXXX", APIAppID := str "AXXXXXXXXX",
                 InnerEvent := some Fixture.appMentionInner,
                 AuthedUsers := [str "UXXXXXXX1"], EventID := str "Ev08MFMKH6",
                 EventTime := 1234567890 },
             InnerEvent :=
               { Type_ := str "app_mention",
                 Data := some (.appMention
                   { Type_ := str "app_mention", User := str "UXXXXXXX1", Text := [],
                     TimeStamp := [], Channel := [],
                     EventTimeStamp := str "1234567890.123456" }) } }, none) :=
    (ParseEvent_of_pass Fixture.env Fixture.callbackBody Fixture.signingSecret
      Fixture.timestamp Fixture.requestBody Fixture.signature Fixture.timestamp_fresh
      Fixture.verifySSS_eq).trans rfl
  ⟨_, _, hret, rfl, by decide,
    (ParseEvent_innerEvent_only_callback Fixture.env Fixture.callbackBody
      Fixture.signingSecret Fixture.timestamp Fixture.requestBody Fixture.signature _ _
      Fixture.typeKeyAgrees hret).1 (by decide)⟩

/-- C18, at the failing input: for the authenticated, fresh request whose raw event is a
callback envelope without an `event` field, the decoded callback envelope has no inner
fragment, `parseInnerEvent` faults on reading it, and so does `ParseEvent`: no event and
error are returned. -/
theorem ParseEvent_callback_without_event_faults :
    Fixture.env.unmarshalCallbackEvent Fixture.noEventBody =
        .ok { Type_ := str "event_callback", Token := str "XXYYZZ",
              TeamID := str "TXXXXXXXX", APIAppID := [], InnerEvent := none,
              AuthedUsers := [], EventID := [], EventTime := 0 } ∧
      parseInnerEvent Fixture.env
          { Type_ := str "event_callback", Token := str "XXYYZZ",
            TeamID := str "TXXXXXXXX", APIAppID := [], InnerEvent := none,
            AuthedUsers := [], EventID := [], EventTime := 0 } =
        .error .nilDereference ∧
      ParseEvent Fixture.env Fixture.noEventBody Fixture.signingSecret Fixture.timestamp
          Fixture.requestBody Fixture.signature = .error .nilDereference := by
  have h := ParseEvent_of_pass Fixture.env Fixture.noEventBody
    Fixture.signingSecret Fixture.timestamp Fixture.requestBody Fixture.signature
    Fixture.timestamp_fresh Fixture.verifySSS_eq
  refine ⟨rfl, rfl, ?_⟩
  rw [h]
  exact decodeEvent_of_nilInner Fixture.env Fixture.noEventBody _ _ rfl rfl rfl rfl

/-- C19: whenever `parseOuterEvent` returns, without error, an event of type
`event_callback`, the `Data` of that event is a callback envelope; and `ParseEvent` never
faults at the assertion `e.Data.(*slackevents.EventsAPICallbackEvent)`. -/
theorem parseOuterEvent_callback_data (env : Env JErr Template Payload) (rawEvent : Bytes)
    (ev : EventsAPIEvent JErr Payload)
    (hpo : parseOuterEvent env rawEvent = (ev, none))
    (ht : ev.Type_ = str "event_callback") :
    (∃ cb, ev.Data = .callback cb) ∧
      ∀ secret timestamp body signature : Bytes,
        ParseEvent env rawEvent secret timestamp body signature ≠ .error .typeAssertion := by
  constructor
  · obtain ⟨e, _, hcase⟩ := parseOuterEvent_success env rawEvent ev hpo
    rcases hcase with ⟨_, cb, _, rfl⟩ | ⟨hne, u, _, rfl⟩
    · exact ⟨cb, rfl⟩
    · exact absurd ht hne
  · intro secret timestamp body signature
    cases hgate : isOutOfRangeTimestamp env.nowUnix timestamp with
    | true =>
      rw [ParseEvent_of_stale env rawEvent secret timestamp body signature hgate]
      simp
    | false =>
      cases hv : verifySSS env.hmacSHA256 secret (verifySlackRequest timestamp body)
          signature with
      | false =>
        rw [ParseEvent_of_rejected env rawEvent secret timestamp body signature hgate hv]
        simp
      | true =>
        rw [ParseEvent_of_pass env rawEvent secret timestamp body signature hgate hv]
        exact decodeEvent_ne_typeAssertion env rawEvent

set_option maxRecDepth 100000 in
/-- Witness of C19: the callback of the tests. -/
theorem parseOuterEvent_callback_data_witness :
    ∃ ev,
      parseOuterEvent Fixture.env Fixture.callbackBody = (ev, none) ∧
        ev.Type_ = str "event_callback" ∧ (∃ cb, ev.Data = .callback cb) ∧
        ∀ secret timestamp body signature : Bytes,
          ParseEvent Fixture.env Fixture.callbackBody secret timestamp body signature ≠
            .error .typeAssertion :=
  ⟨(parseOuterEvent Fixture.env Fixture.callbackBody).1, rfl, rfl,
    parseOuterEvent_callback_data Fixture.env Fixture.callbackBody
      (parseOuterEvent Fixture.env Fixture.callbackBody).1 rfl rfl⟩

/-- `ParseEvent` computes what `ParseEventSingleDecode` computes, on every input. -/
theorem ParseEvent_eq_singleDecode (env : Env JErr Template Payload)
    (rawEvent secret timestamp body signature : Bytes) :
    ParseEvent env rawEvent secret timestamp body signature =
      ParseEventSingleDecode env rawEvent secret timestamp body signature := by
  unfold ParseEvent ParseEventSingleDecode
  split
  · rfl
  · split
    · rfl
    · split
      · rfl
      · next e hpo =>
        obtain ⟨e₀, _, hcase⟩ := parseOuterEvent_success env rawEvent e hpo
        rcases hcase with ⟨ht, cb, _, rfl⟩ | ⟨ht, u, hu, rfl⟩
        · simp only [ht, if_true]
        · simp only [ht, if_false, hu]

/-- C20: for an authenticated, fresh request on which `parseOuterEvent` succeeds with a
type other than `event_callback`, `ParseEvent` returns the event of `parseOuterEvent` and
a nil error; that event has an empty inner event and as `Data` the URL-verification shape
that the second decoding of the raw event yields again, so that the error branch after the
second decoding is not taken. -/
theorem ParseEvent_second_decode_redundant (env : Env JErr Template Payload)
    (rawEvent secret timestamp body signature : Bytes) (ev : EventsAPIEvent JErr Payload)
    (hfresh : isOutOfRangeTimestamp env.nowUnix timestamp = false)
    (hsig : signature = expectedSignature env.hmacSHA256 secret timestamp body)
    (hpo : parseOuterEvent env rawEvent = (ev, none))
    (ht : ev.Type_ ≠ str "event_callback") :
    ParseEvent env rawEvent secret timestamp body signature = .ok (ev, none) ∧
      ev.InnerEvent = emptyInnerEvent ∧
      ∃ u, env.unmarshalURLVerificationEvent rawEvent = .ok u ∧
        ev.Data = .urlVerification u := by
  have hok := (verifySSS_iff env.hmacSHA256 secret timestamp body signature).mpr hsig
  obtain ⟨e, he, hcase⟩ := parseOuterEvent_success env rawEvent ev hpo
  rcases hcase with ⟨hty, cb, _, rfl⟩ | ⟨hty, u, hu, rfl⟩
  · exact absurd hty ht
  · refine ⟨?_, rfl, u, hu, rfl⟩
    rw [ParseEvent_of_pass env rawEvent secret timestamp body signature hfresh hok]
    exact decodeEvent_of_other env rawEvent e u he hty hu

/-- Witness of C20: the URL verification of the tests. -/
theorem ParseEvent_second_decode_redundant_witness :
    ParseEvent Fixture.env Fixture.urlVerificationBody Fixture.signingSecret
        Fixture.timestamp Fixture.requestBody Fixture.signature =
      .ok ((parseOuterEvent Fixture.env Fixture.urlVerificationBody).1, none) :=
  (ParseEvent_second_decode_redundant Fixture.env Fixture.urlVerificationBody
    Fixture.signingSecret Fixture.timestamp Fixture.requestBody Fixture.signature
    (parseOuterEvent Fixture.env Fixture.urlVerificationBody).1
    Fixture.timestamp_fresh Fixture.signature_eq rfl (by decide)).1

end Results

end Slacksigverify
